import Mathlib

/-!
Verification development for the meetingAnalyzer repository
(`src/bot.py`, `src/pipeline.py`): a shallow embedding of the
transcript merge engine, the per-chat session state machine, the
workflow orchestration of `process_meeting`, and the three report
renderers (`generate_pdf`, `generate_html`, `generate_txt`),
together with theorems checking the specification against the code.

Conventions of the embedding:
* A Python dict field read via `d.get(key, default)` becomes an
  `Option` field fetched with `Option.getD`; a field read via
  `d.get(key, [])` becomes a plain `List` field, the absent key being
  identified with the empty list (exactly how the renderers treat it);
  a sub-dict read via `d.get(key, {})` and never tested for truthiness
  becomes a plain structure field whose default value has every field
  absent, while one that is tested (`if dy:`) becomes an `Option`.
* Python truthiness of an optional string (`None` and `""` are both
  falsy) is the `pyTruthy` helper below.
* External collaborators (the Telegram transport, Deepgram, OpenAI,
  `re` searches in `handle_text`, the ReportLab layout engine, the
  filesystem, `datetime.now()` and `json.dumps`) are parameters of the
  embedded functions; all logic of this repository is embedded.
* Durations (Python floats) are modelled as rationals; the claims
  about them concern only which aggregation is computed.
* Literal braces and apostrophes inside string literals are written
  with the escapes `\x7b`, `\x7d` and `\x27`.
-/

namespace MeetingAnalyzer

/-- Python truthiness of `d.get(key)` for an optional string field:
`None` and the empty string are both falsy. -/
def pyTruthy (o : Option String) : Bool :=
  o.getD "" ≠ ""

/-- `sep.join(strings)` from Python. -/
def joinSep (sep : String) : List String → String
  | [] => ""
  | [s] => s
  | s :: rest => s ++ sep ++ joinSep sep rest

/-- Concatenation of a list of string pieces, in order (the effect of
an f-string template, or of `"".join`). -/
def strJoin : List String → String
  | [] => ""
  | s :: rest => s ++ strJoin rest

/-- Python `max` over a list of naturals; the source only applies `max`
to non-empty lists of speaker counts, where folding from `0` agrees
with it. -/
def listMaxNat (l : List Nat) : Nat :=
  l.foldl Nat.max 0

/-! ## Transcript merge engine

`pipeline.transcribe_file` (chunk merge) and `bot.process_meeting`
(multi-source merge) contain the same merge code; it is embedded once. -/

/-- One transcription result: the dict returned by
`pipeline.transcribe_deepgram` / `transcribe_file`. -/
structure Transcript where
  full_text : String
  speaker_transcript : String
  speakers_count : Nat
  detected_language : String
  duration_seconds : Rat
deriving DecidableEq, Repr

/-- Merge of a non-empty list `t :: rest` of transcription results, as
in `bot.process_meeting` and `pipeline.transcribe_file`: a single
result is returned unchanged; otherwise the texts are joined with the
separators of the source, `speakers_count` is the Python `max`,
`detected_language` comes from the first result and `duration_seconds`
is the Python `sum`. -/
def merge1 (t : Transcript) (rest : List Transcript) : Transcript :=
  match rest with
  | [] => t
  | _ :: _ =>
    { full_text :=
        joinSep "\n\n" ((t :: rest).map (·.full_text))
      speaker_transcript :=
        joinSep "\n\n--- (продолжение) ---\n\n"
          ((t :: rest).map (·.speaker_transcript))
      speakers_count := listMaxNat ((t :: rest).map (·.speakers_count))
      detected_language := t.detected_language
      duration_seconds := ((t :: rest).map (·.duration_seconds)).sum }

/-- The merge over an arbitrary list of results; the source never
reaches the merge with an empty list (`if not all_transcripts` is
checked first), recorded here as `none`. -/
def mergeTranscripts : List Transcript → Option Transcript
  | [] => none
  | t :: rest => some (merge1 t rest)

/-! ## Escaping (`pipeline.esc`) -/

/-- Replace every occurrence of the single character `c` by the
character list `r`: the effect of Python `str.replace` with a
one-character needle. -/
def replace1 (c : Char) (r : List Char) : List Char → List Char
  | [] => []
  | x :: xs => (if x = c then r else [x]) ++ replace1 c r xs

/-- `pipeline.esc`: chained `replace` of `&`, then `<`, then `>`.
The renderers only pass strings, so the `str(text)` branch for
non-strings does not arise in the embedding. -/
def esc (s : String) : String :=
  ⟨replace1 '>' "&gt;".data
    (replace1 '<' "&lt;".data
      (replace1 '&' "&amp;".data s.data))⟩

/-- Per-character view of `esc`, used for reasoning. -/
def escChar (c : Char) : List Char :=
  if c = '&' then "&amp;".data
  else if c = '<' then "&lt;".data
  else if c = '>' then "&gt;".data
  else [c]

/-- `esc` as a single left-to-right pass. -/
def escL : List Char → List Char
  | [] => []
  | c :: cs => escChar c ++ escL cs

/-- Boolean prefix test on character lists. -/
def leadsWith : List Char → List Char → Bool
  | [], _ => true
  | _ :: _, [] => false
  | p :: ps, x :: xs => p = x && leadsWith ps xs

/-- A character list is well-escaped markup text when it contains no
raw `<` or `>` and every `&` starts one of the entities `&amp;`,
`&lt;`, `&gt;`. -/
def wellEscaped : List Char → Bool
  | [] => true
  | c :: rest =>
    if c = '<' then false
    else if c = '>' then false
    else if c = '&' then
      (leadsWith "amp;".data rest || leadsWith "lt;".data rest
        || leadsWith "gt;".data rest) && wellEscaped rest
    else wellEscaped rest

/-- Boolean substring test on character lists (scan every suffix with
`leadsWith`); related to `List.IsInfix` by `containsSub_iff` below. -/
def containsSub (p : List Char) : List Char → Bool
  | [] => p.isEmpty
  | x :: xs => leadsWith p (x :: xs) || containsSub p xs

/-- Boolean test that the character `c` does not occur in the list. -/
def charFreeL (c : Char) : List Char → Bool
  | [] => true
  | x :: xs => !(x = c) && charFreeL c xs

/-- Some piece of the list contains the pattern `p` as a substring. -/
def anyContains (p : List Char) : List String → Bool
  | [] => false
  | s :: rest => containsSub p s.data || anyContains p rest

/-- No piece of the list contains the character `c`. -/
def allCharFree (c : Char) : List String → Bool
  | [] => true
  | s :: rest => charFreeL c s.data && allCharFree c rest

/-! ## Analysis document model

The untyped JSON document returned by `analyze_meeting`, restricted to
the fields the renderers and handlers actually read.  Every field is
optional (`Option`, or a `List`/sub-structure whose default means
"absent"), so `({} : Analysis)` is the empty document `{}`. -/

/-- `analysis["passport"]` block. -/
structure Passport where
  date : Option String := none
  duration_estimate : Option String := none
  participants_count : Option Nat := none
  format : Option String := none
  domain : Option String := none
  tone : Option String := none
  summary : Option String := none
deriving DecidableEq, Repr

/-- `analysis["meeting_goals"]` block. -/
structure Goals where
  explicit : List String := []
  implicit : List String := []
  recommendation : Option String := none
deriving DecidableEq, Repr

/-- One entry of `analysis["topics"]`.  `positions` is the dict
speaker ↦ position in insertion order. -/
structure Topic where
  title : Option String := none
  description : Option String := none
  detailed_discussion : Option String := none
  raised_by : Option String := none
  key_points : List String := []
  positions : List (String × String) := []
  outcome : Option String := none
  quotes : List String := []
  unresolved : List String := []
deriving DecidableEq, Repr

/-- One entry of `analysis["decisions"]`. -/
structure Decision where
  decision : Option String := none
  responsible : Option String := none
  status : Option String := none
deriving DecidableEq, Repr

/-- One entry of `analysis["action_items"]`. -/
structure ActionItem where
  task : Option String := none
  responsible : Option String := none
  deadline : Option String := none
deriving DecidableEq, Repr

/-- One entry of `analysis["unresolved_questions"]`. -/
structure OpenQuestion where
  question : Option String := none
  reason : Option String := none
deriving DecidableEq, Repr

/-- `dynamics["interaction_patterns"]`. -/
structure InteractionPatterns where
  interruptions : Option String := none
  topic_initiators : List String := []
deriving DecidableEq, Repr

/-- `dynamics["emotional_map"]`. -/
structure EmotionalMap where
  enthusiasm_moments : List String := []
  tension_moments : List String := []
  turning_points : List String := []
  uncertainty_moments : List String := []
deriving DecidableEq, Repr

/-- `analysis["dynamics"]` block. -/
structure Dynamics where
  participation_balance : List (String × String) := []
  interaction_patterns : InteractionPatterns := {}
  emotional_map : EmotionalMap := {}
  unspoken : List String := []
deriving DecidableEq, Repr

/-- One substantive recommendation. -/
structure SubRec where
  what : Option String := none
  why : Option String := none
  how : Option String := none
  priority : Option String := none
deriving DecidableEq, Repr

/-- One process recommendation. -/
structure ProcRec where
  what : Option String := none
  how : Option String := none
deriving DecidableEq, Repr

/-- `analysis["expert_recommendations"]` block.  `substantive` and
`recommendations` distinguish an absent key from an empty list because
the PDF renderer falls back from the former to the latter. -/
structure Recs where
  strengths : List String := []
  attention_points : List String := []
  substantive : Option (List SubRec) := none
  recommendations : Option (List SubRec) := none
  process : List ProcRec := []
  tools_and_methods : List String := []
  benchmarks : List String := []
  next_meeting_questions : List String := []
deriving DecidableEq, Repr

/-- `analysis["swot"]` block. -/
structure Swot where
  strengths : List String := []
  weaknesses : List String := []
  opportunities : List String := []
  threats : List String := []
deriving DecidableEq, Repr

/-- One entry of `analysis["risks"]`. -/
structure Risk where
  risk : Option String := none
  probability : Option String := none
  impact : Option String := none
  mitigation : Option String := none
deriving DecidableEq, Repr

/-- `analysis["action_plan"]` block. -/
structure ActionPlan where
  urgent : List String := []
  medium_term : List String := []
  long_term : List String := []
  kpi : List String := []
deriving DecidableEq, Repr

/-- `analysis["conclusion"]` block. -/
structure Conclusion where
  main_insight : Option String := none
  key_recommendation : Option String := none
  forecast : Option String := none
deriving DecidableEq, Repr

/-- One entry of `analysis["uncertainties"]`. -/
structure Uncertainty where
  text : Option String := none
  context : Option String := none
  possible_meaning : Option String := none
deriving DecidableEq, Repr

/-- One entry of `analysis["corrected_terms"]`. -/
structure CorrectedTerm where
  original : Option String := none
  corrected : Option String := none
deriving DecidableEq, Repr

/-- One entry of `analysis["glossary"]`. -/
structure GlossaryItem where
  term : Option String := none
  definition : Option String := none
deriving DecidableEq, Repr

/-- The analysis document.  `({} : Analysis)` is the empty document. -/
structure Analysis where
  meeting_topic_short : Option String := none
  executive_summary : Option String := none
  passport : Passport := {}
  meeting_goals : Option Goals := none
  topics : List Topic := []
  decisions : List Decision := []
  action_items : List ActionItem := []
  unresolved_questions : List OpenQuestion := []
  dynamics : Option Dynamics := none
  expert_recommendations : Option Recs := none
  swot : Swot := {}
  risks : List Risk := []
  action_plan : ActionPlan := {}
  conclusion : Conclusion := {}
  uncertainties : List Uncertainty := []
  corrected_terms : List CorrectedTerm := []
  glossary : List GlossaryItem := []
deriving DecidableEq, Repr

/-! ## Session state machine (`bot.py`) -/

/-- One pending entry of `session["files"]`: the stored Telegram
message handle is abstracted by the resolved file name. -/
structure PendingFile where
  name : String
deriving DecidableEq, Repr

/-- Per-chat session state: the dict created by `bot.get_session`. -/
structure Session where
  files : List PendingFile
  urls : List String
  processing : Bool
  last_analysis : Option Analysis
  last_transcript : Option String
  last_transcript_data : Option Transcript
deriving DecidableEq, Repr

/-- The fresh session made by `get_session` for an unknown chat id. -/
def freshSession : Session :=
  { files := [], urls := [], processing := false
    last_analysis := none, last_transcript := none
    last_transcript_data := none }

/-- `bot.reset_session`: pending lists and the processing flag are
cleared; the three cache fields are carried over from the old dict. -/
def reset_session (s : Session) : Session :=
  { files := [], urls := [], processing := false
    last_analysis := s.last_analysis
    last_transcript := s.last_transcript
    last_transcript_data := s.last_transcript_data }

/-! ## Message handlers (`bot.py`)

Each handler is a pure function from the session (and the data of the
incoming update) to the new session, the reply sent back — `none` when
the handler returns without replying — and whether an analysis /
re-render run was started. -/

/-- Effect of one handler invocation. -/
structure HandlerResult where
  session : Session
  reply : Option String
  startedRun : Bool
deriving DecidableEq, Repr

/-- `bot.LANGUAGES`, as the list key ↦ (display name, language code). -/
def LANGUAGES : List (String × String × String) :=
  [("ru", ("🇷🇺 Русский", "ru")),
   ("en", ("🇬🇧 English", "en")),
   ("kz", ("🇰🇿 Қазақша", "kk")),
   ("es", ("🇪🇸 Español", "es")),
   ("zh", ("🇨🇳 中文", "zh")),
   ("orig", ("🗣 Язык оригинала", "original"))]

/-- `LANGUAGES.get(key, ("", "ru"))`. -/
def languagesGet (key : String) : String × String :=
  (List.lookup key LANGUAGES).getD ("", "ru")

/-- Busy reply of `handle_analyze`. -/
def msgBusyAnalyze : String := "⏳ Ещё обрабатываю. Подожди!"

/-- Busy reply of the callback handlers. -/
def msgBusyCb : String := "Уже обрабатываю!"

/-- No-cached-data reply of `handle_retranslate`. -/
def msgNoData : String := "Нет данных для перевода. Скинь новую запись!"

/-- Language-keyboard prompt of `handle_analyze` / `handle_start_analyze`. -/
def msgPickLanguage : String := "🌍 На каком языке написать отчёт?"

/-- Acceptance reply of the media handlers. -/
def msgAccepted (fn : String) : String :=
  "📎 Принято: **" ++ fn ++ "**\nЕщё файлы? Или жми кнопку:"

/-- Acceptance reply of `handle_text` for links. -/
def msgLinkAccepted : String := "🔗 Ссылка принята!\nЕщё? Или жми кнопку:"

/-- `bot.handle_analyze` (`/analyze`). -/
def handle_analyze (s : Session) : HandlerResult :=
  if s.processing then ⟨s, some msgBusyAnalyze, false⟩
  else if s.files.isEmpty && s.urls.isEmpty then
    ⟨s, some "🤔 Файлов нет! Сначала скинь аудио/видео или ссылку.", false⟩
  else ⟨s, some msgPickLanguage, false⟩

/-- `bot.handle_start_analyze` (the 🚀 button). -/
def handle_start_analyze (s : Session) : HandlerResult :=
  if s.processing then ⟨s, some msgBusyCb, false⟩
  else if s.files.isEmpty && s.urls.isEmpty then
    ⟨s, some "Сначала скинь файл!", false⟩
  else ⟨s, some msgPickLanguage, false⟩

/-- `bot.handle_language` (`lang_*` callback): when not busy it spawns
the `process_meeting` task; the spawned run itself is modelled by
`process_meeting` below. -/
def handle_language (s : Session) (key : String) : HandlerResult :=
  if s.processing then ⟨s, some msgBusyCb, false⟩
  else ⟨s, some ("Выбран: " ++ (languagesGet key).1), true⟩

/-- `bot.handle_retranslate` (`retranslate_*` callback), up to the
point where the re-render run begins: the cache check precedes the
`processing` check; when neither rejection fires the handler sets
`processing` and starts the cached re-analysis. -/
def handle_retranslate (s : Session) (key : String) : HandlerResult :=
  if !s.last_transcript_data.isSome && !pyTruthy s.last_transcript then
    ⟨s, some msgNoData, false⟩
  else if s.processing then ⟨s, some msgBusyCb, false⟩
  else
    ⟨{ s with processing := true },
      some ("🌍 Язык: **" ++ (languagesGet key).1 ++
        "**\n\n✅ Транскрипция (из кеша)\n⏳ Анализирую на новом языке..."),
      true⟩

/-- `bot.handle_audio` (audio and voice messages); `fn` is the resolved
file name (original name, or the generated `audio_…`/`voice_…` name). -/
def handle_audio (s : Session) (fn : String) : HandlerResult :=
  if s.processing then ⟨s, none, false⟩
  else ⟨{ s with files := s.files ++ [⟨fn⟩] }, some (msgAccepted fn), false⟩

/-- `bot.handle_video` (video and video-note messages). -/
def handle_video (s : Session) (fn : String) : HandlerResult :=
  if s.processing then ⟨s, none, false⟩
  else ⟨{ s with files := s.files ++ [⟨fn⟩] }, some (msgAccepted fn), false⟩

/-- `bot.AUDIO_EXTS ∪ VIDEO_EXTS`. -/
def MEDIA_EXTS : List String :=
  [".mp3", ".wav", ".ogg", ".m4a", ".opus", ".flac", ".aac", ".wma",
   ".mp4", ".mov", ".avi", ".mkv", ".webm", ".3gp"]

/-- `os.path.splitext(fn)[1].lower()`: the extension from the last dot
of the basename, lower-cased; leading dots of the basename do not begin
an extension (`".mp3"` has extension `""`), and a dotless name yields
`""`. -/
def splitextLower (fn : String) : String :=
  let base := (fn.data.reverse.takeWhile (· ≠ '/')).reverse
  let lead := base.takeWhile (· = '.')
  let rest := base.drop lead.length
  if rest.contains '.' then
    ⟨('.' :: (rest.reverse.takeWhile (· ≠ '.')).reverse).map Char.toLower⟩
  else ""

/-- `bot.handle_document`. -/
def handle_document (s : Session) (fn : String) : HandlerResult :=
  if s.processing then ⟨s, none, false⟩
  else if MEDIA_EXTS.contains (splitextLower fn) then
    ⟨{ s with files := s.files ++ [⟨fn⟩] }, some (msgAccepted fn), false⟩
  else
    ⟨s, some ("🤔 **" ++ fn ++
      "** – не аудио/видео.\nПоддерживаю: mp3, wav, m4a, mp4, mov..."), false⟩

/-- `bot.handle_text`; `text` is the stripped message text,
`patternMatch` the `group(0)` of the first matching URL pattern and
`bareUrl` the outcome of the final `re.match(r"https?://\S+")` — both
computed by the external `re` collaborator. -/
def handle_text (s : Session) (text : String)
    (patternMatch : Option String) (bareUrl : Bool) : HandlerResult :=
  if s.processing then ⟨s, none, false⟩
  else
    match patternMatch with
    | some u => ⟨{ s with urls := s.urls ++ [u] }, some msgLinkAccepted, false⟩
    | none =>
      if bareUrl then
        ⟨{ s with urls := s.urls ++ [text] }, some msgLinkAccepted, false⟩
      else
        ⟨s, some ("👋 Скинь мне аудио/видео или ссылку YouTube/Google Drive.\n" ++
          "Когда всё загружено – жми /analyze и я займусь делом 🚀"), false⟩

/-! ## Report generation (`pipeline.py`) -/

/-- Approximation of Python `\w` used by `make_slug` (ASCII
alphanumerics, underscore; non-ASCII characters are kept, as Python
`re` is Unicode-aware). -/
def isWordChar (c : Char) : Bool :=
  c.isAlphanum || c = '_' || 0x80 ≤ c.toNat

/-- Python `str.strip()`. -/
def pyStrip (cs : List Char) : List Char :=
  ((cs.dropWhile Char.isWhitespace).reverse.dropWhile Char.isWhitespace).reverse

/-- `pipeline.make_slug`: drop characters that are not word characters,
whitespace or `-`; strip; spaces to `_`; first 50 characters. -/
def make_slug (analysis : Analysis) : String :=
  let raw := analysis.meeting_topic_short.getD "meeting"
  let kept := raw.data.filter (fun c => isWordChar c || c.isWhitespace || c = '-')
  ⟨((pyStrip kept).map (fun c => if c = ' ' then '_' else c)).take 50⟩

/-- `dict.get(key, default)` over an association list. -/
def lookupD (L : List (String × String)) (k d : String) : String :=
  (List.lookup k L).getD d

/-- `generate_pdf._detect_content_lang`, over the serialized content
sample (`json.dumps(analysis, ensure_ascii=False)[:2000]`, produced by
the external serializer and passed in as a parameter). -/
def detect_content_lang (sample : String) : String :=
  let cs := sample.data
  let cjk := (cs.filter (fun ch => decide ('一' ≤ ch) && decide (ch ≤ '鿿'))).length
  if cjk > 10 then "zh"
  else
    let cyr := (cs.filter (fun ch => decide ('Ѐ' ≤ ch) && decide (ch ≤ 'ӿ'))).length
    let lat := (cs.filter (fun ch => decide ('a' ≤ ch.toLower) && decide (ch.toLower ≤ 'z'))).length
    if cyr > lat then
      if cs.any (fun ch => "ӘәҒғҚқҢңӨөҰұҮүІі".data.contains ch) then "kk" else "ru"
    else if cs.any (fun ch => "ñáéíóúüÑÁÉÍÓÚÜ¿¡".data.contains ch) then "es"
    else "en"

/-- The Russian UI-string table of `generate_pdf.I18N`. -/
def I18N_ru : List (String × String) :=
  [("brand", "Цифровой Умник"), ("report_from", "Отчёт от"), ("page", "Стр."),
   ("generated", "Сгенерировано"), ("date", "Дата"), ("duration", "Длительность"),
   ("participants", "Участники"), ("format", "Формат"), ("domain", "Область"),
   ("tone", "Тон"), ("topics", "ТЕМЫ ОБСУЖДЕНИЯ"), ("outcome", "Итог"),
   ("decisions", "РЕШЕНИЯ"), ("decision", "Решение"), ("responsible", "Ответственный"),
   ("status", "Статус"), ("open_questions", "ОТКРЫТЫЕ ВОПРОСЫ"), ("reason", "Причина"),
   ("dynamics", "ДИНАМИКА ВСТРЕЧИ"), ("participation", "Баланс участия"),
   ("interruptions", "Перебивания"), ("enthusiasm", "Энтузиазм"),
   ("tension", "Напряжение"), ("turning_points", "Переломные моменты"),
   ("between_lines", "Между строк"), ("recommendations", "РЕКОМЕНДАЦИИ ЦИФРОВОГО УМНИКА"),
   ("recommendation", "Рекомендация"), ("why", "Почему"), ("how", "Как"),
   ("next_meeting", "Вопросы для следующей встречи"), ("tasks", "ЗАДАЧИ"),
   ("task", "Задача"), ("deadline", "Срок"), ("uncertainties", "ТРЕБУЕТ УТОЧНЕНИЯ"),
   ("context", "Контекст"), ("possibly", "Возможно"),
   ("corrections", "ИСПРАВЛЕНИЯ РАСПОЗНАВАНИЯ"), ("glossary", "ГЛОССАРИЙ"),
   ("footer", "AI-анализ встречи")]

/-- The English UI-string table of `generate_pdf.I18N`. -/
def I18N_en : List (String × String) :=
  [("brand", "Digital Smarty"), ("report_from", "Report from"), ("page", "Page"),
   ("generated", "Generated"), ("date", "Date"), ("duration", "Duration"),
   ("participants", "Participants"), ("format", "Format"), ("domain", "Domain"),
   ("tone", "Tone"), ("topics", "DISCUSSION TOPICS"), ("outcome", "Outcome"),
   ("decisions", "DECISIONS"), ("decision", "Decision"), ("responsible", "Responsible"),
   ("status", "Status"), ("open_questions", "OPEN QUESTIONS"), ("reason", "Reason"),
   ("dynamics", "MEETING DYNAMICS"), ("participation", "Participation balance"),
   ("interruptions", "Interruptions"), ("enthusiasm", "Enthusiasm"),
   ("tension", "Tension"), ("turning_points", "Turning points"),
   ("between_lines", "Between the lines"), ("recommendations", "DIGITAL SMARTY RECOMMENDATIONS"),
   ("recommendation", "Recommendation"), ("why", "Why"), ("how", "How"),
   ("next_meeting", "Questions for next meeting"), ("tasks", "ACTION ITEMS"),
   ("task", "Task"), ("deadline", "Deadline"), ("uncertainties", "NEEDS CLARIFICATION"),
   ("context", "Context"), ("possibly", "Possibly"),
   ("corrections", "TRANSCRIPTION CORRECTIONS"), ("glossary", "GLOSSARY"),
   ("footer", "AI meeting analysis")]

/-- The Kazakh UI-string table of `generate_pdf.I18N`. -/
def I18N_kk : List (String × String) :=
  [("brand", "Цифрлық Ақылды"), ("report_from", "Есеп күні"), ("page", "Бет"),
   ("generated", "Жасалған"), ("date", "Күні"), ("duration", "Ұзақтығы"),
   ("participants", "Қатысушылар"), ("format", "Формат"), ("domain", "Сала"),
   ("tone", "Тон"), ("topics", "ТАЛҚЫЛАУ ТАҚЫРЫПТАРЫ"), ("outcome", "Нәтиже"),
   ("decisions", "ШЕШІМДЕР"), ("decision", "Шешім"), ("responsible", "Жауапты"),
   ("status", "Мәртебесі"), ("open_questions", "АШЫҚ СҰРАҚТАР"), ("reason", "Себеп"),
   ("dynamics", "КЕЗДЕСУ ДИНАМИКАСЫ"), ("participation", "Қатысу балансы"),
   ("interruptions", "Сөзін бөлу"), ("enthusiasm", "Ынта"),
   ("tension", "Шиеленіс"), ("turning_points", "Бетбұрыс сәттер"),
   ("between_lines", "Жолдар арасында"), ("recommendations", "ЦИФРЛЫҚ АҚЫЛДЫ ҰСЫНЫСТАРЫ"),
   ("recommendation", "Ұсыныс"), ("why", "Неліктен"), ("how", "Қалай"),
   ("next_meeting", "Келесі кездесуге сұрақтар"), ("tasks", "ТАПСЫРМАЛАР"),
   ("task", "Тапсырма"), ("deadline", "Мерзімі"), ("uncertainties", "НАҚТЫЛАУДЫ ҚАЖЕТ ЕТЕДІ"),
   ("context", "Контекст"), ("possibly", "Мүмкін"),
   ("corrections", "ТАНУ ТҮЗЕТУЛЕРІ"), ("glossary", "ГЛОССАРИЙ"),
   ("footer", "AI кездесу талдауы")]

/-- The Spanish UI-string table of `generate_pdf.I18N`. -/
def I18N_es : List (String × String) :=
  [("brand", "Digital Smarty"), ("report_from", "Informe del"), ("page", "Pág."),
   ("generated", "Generado"), ("date", "Fecha"), ("duration", "Duración"),
   ("participants", "Participantes"), ("format", "Formato"), ("domain", "Área"),
   ("tone", "Tono"), ("topics", "TEMAS DE DISCUSIÓN"), ("outcome", "Resultado"),
   ("decisions", "DECISIONES"), ("decision", "Decisión"), ("responsible", "Responsable"),
   ("status", "Estado"), ("open_questions", "PREGUNTAS ABIERTAS"), ("reason", "Razón"),
   ("dynamics", "DINÁMICA DE LA REUNIÓN"), ("participation", "Balance de participación"),
   ("interruptions", "Interrupciones"), ("enthusiasm", "Entusiasmo"),
   ("tension", "Tensión"), ("turning_points", "Puntos de inflexión"),
   ("between_lines", "Entre líneas"), ("recommendations", "RECOMENDACIONES DE DIGITAL SMARTY"),
   ("recommendation", "Recomendación"), ("why", "Por qué"), ("how", "Cómo"),
   ("next_meeting", "Preguntas para la próxima reunión"), ("tasks", "TAREAS"),
   ("task", "Tarea"), ("deadline", "Plazo"), ("uncertainties", "NECESITA ACLARACIÓN"),
   ("context", "Contexto"), ("possibly", "Posiblemente"),
   ("corrections", "CORRECCIONES DE TRANSCRIPCIÓN"), ("glossary", "GLOSARIO"),
   ("footer", "Análisis de reunión con IA")]

/-- The Chinese UI-string table of `generate_pdf.I18N`. -/
def I18N_zh : List (String × String) :=
  [("brand", "数字智囊"), ("report_from", "报告日期"), ("page", "页"),
   ("generated", "生成时间"), ("date", "日期"), ("duration", "时长"),
   ("participants", "参与者"), ("format", "格式"), ("domain", "领域"),
   ("tone", "语气"), ("topics", "讨论主题"), ("outcome", "结果"),
   ("decisions", "决策"), ("decision", "决定"), ("responsible", "负责人"),
   ("status", "状态"), ("open_questions", "待解决问题"), ("reason", "原因"),
   ("dynamics", "会议动态"), ("participation", "参与平衡"),
   ("interruptions", "打断"), ("enthusiasm", "热情"),
   ("tension", "紧张"), ("turning_points", "转折点"),
   ("between_lines", "言外之意"), ("recommendations", "数字智囊建议"),
   ("recommendation", "建议"), ("why", "原因"), ("how", "方法"),
   ("next_meeting", "下次会议问题"), ("tasks", "任务"),
   ("task", "任务"), ("deadline", "截止日期"), ("uncertainties", "需要澄清"),
   ("context", "上下文"), ("possibly", "可能"),
   ("corrections", "转录修正"), ("glossary", "术语表"),
   ("footer", "AI会议分析")]

/-- `I18N.get(effective_lang, I18N.get("ru"))`: the table of the
effective language, falling back to the Russian one for an
unrecognized code. -/
def i18nGet (lang : String) : List (String × String) :=
  if lang = "ru" then I18N_ru
  else if lang = "en" then I18N_en
  else if lang = "kk" then I18N_kk
  else if lang = "es" then I18N_es
  else if lang = "zh" then I18N_zh
  else I18N_ru

/-- The message of the Python `NameError` raised by `generate_pdf` when
it evaluates the undefined name `pw` (`colWidths=[pw/2]*2` in the SWOT
table, `colWidths=[pw*0.3, ...]` in the risks table; every other table
of the function uses the defined width `W`). -/
def nameErrorPw : String := "NameError: name \x27pw\x27 is not defined"

/-- Abstraction of one ReportLab flowable appended to the story `st`,
keeping the full markup text handed to the library: `para` a
`Paragraph`, `table` a `Table` as its rows of cell-paragraph texts,
`keep` a `KeepTogether` of paragraphs, `spacer` a `Spacer`, `hrule` an
`HRFlowable`.  Styles, colors and column widths are layout parameters
of the external library and are not modelled — except that evaluating
the undefined `pw` in a column-width expression raises. -/
inductive Flowable
  | para (text : String)
  | table (rows : List (List String))
  | keep (paras : List String)
  | spacer
  | hrule
deriving DecidableEq, Repr

/-- Abbreviation for the UI-string table type. -/
abbrev UITable := List (String × String)

/-- `generate_pdf.section_header`. -/
def pdfSectionHeader (num title : String) : Flowable :=
  .para ("<b>" ++ num ++ ".</b> " ++ esc title)

/-- Title header of the PDF story: brand, report date, rule. -/
def pdfHeaderBlock (L : UITable) (ds : String) : List Flowable :=
  [.para (lookupD L "brand" ""), .para (lookupD L "report_from" "" ++ " " ++ ds), .hrule]

/-- The passport summary paragraph (only when `passport["summary"]` is
truthy). -/
def pdfSummaryBlock (p : Passport) : List Flowable :=
  if p.summary.getD "" ≠ "" then [.para (esc (p.summary.getD ""))] else []

/-- The passport table (always emitted, absent fields as `–`). -/
def pdfPassportBlock (L : UITable) (p : Passport) : List Flowable :=
  let pcount := match p.participants_count with
    | some n => toString n
    | none => "–"
  [.table
    [[esc (lookupD L "date" ""), esc (p.date.getD "–"),
      esc (lookupD L "duration" ""), esc (p.duration_estimate.getD "–")],
     [esc (lookupD L "participants" ""), esc pcount,
      esc (lookupD L "format" ""), esc (p.format.getD "–")],
     [esc (lookupD L "domain" ""), esc (p.domain.getD "–"),
      esc (lookupD L "tone" ""), esc (p.tone.getD "–")]],
   .spacer]

/-- One topic of the TOPICS section, as the `KeepTogether` block of its
paragraph texts followed by a spacer. -/
def pdfTopicItem (L : UITable) (i : Nat) (tp : Topic) : List Flowable :=
  [Flowable.keep
    (["<b>" ++ toString i ++ ". " ++ esc (tp.title.getD "") ++ "</b>"]
      ++ (if pyTruthy tp.description then [esc (tp.description.getD "")] else [])
      ++ (if pyTruthy tp.detailed_discussion then
            [esc (tp.detailed_discussion.getD "")] else [])
      ++ tp.key_points.map (fun kp => "• " ++ esc kp)
      ++ tp.positions.map (fun sp => "<b>" ++ esc sp.1 ++ ":</b> " ++ esc sp.2)
      ++ (if pyTruthy tp.outcome then
            ["<b>" ++ lookupD L "outcome" "" ++ ":</b> " ++ esc (tp.outcome.getD "")]
          else [])
      ++ (tp.quotes.take 2).map (fun q => "«" ++ esc q ++ "»")
      ++ tp.unresolved.map (fun uq => "? " ++ esc uq)),
   Flowable.spacer]

/-- The TOPICS section (omitted when there are no topics). -/
def pdfTopicsBlock (L : UITable) (topics : List Topic) : List Flowable :=
  if topics ≠ [] then
    pdfSectionHeader "1" (lookupD L "topics" "") ::
    (topics.enumFrom 1).flatMap (fun it => pdfTopicItem L it.1 it.2)
  else []

/-- The DECISIONS section with its status-icon table. -/
def pdfDecisionsBlock (L : UITable) (decs : List Decision) : List Flowable :=
  if decs ≠ [] then
    [pdfSectionHeader "2" (lookupD L "decisions" ""),
     .table ([esc "", esc (lookupD L "decision" ""),
              esc (lookupD L "responsible" ""), esc (lookupD L "status" "")]
       :: decs.map (fun d =>
          let status := d.status.getD ""
          let icon :=
            if status = "accepted" then "✅"
            else if status = "pending" then "⏳"
            else if status = "question" then "?"
            else "–"
          [esc icon, esc (d.decision.getD ""), esc (d.responsible.getD "–"), esc status])),
     .spacer]
  else []

/-- The OPEN QUESTIONS section. -/
def pdfUqBlock (L : UITable) (uqs : List OpenQuestion) : List Flowable :=
  if uqs ≠ [] then
    pdfSectionHeader "3" (lookupD L "open_questions" "") ::
    uqs.flatMap (fun uq =>
      Flowable.para ("<b>" ++ esc (uq.question.getD "") ++ "</b>") ::
      (if pyTruthy uq.reason then
        [Flowable.para (lookupD L "reason" "" ++ ": " ++ esc (uq.reason.getD ""))]
       else []))
    ++ [.spacer]
  else []

/-- The MEETING DYNAMICS section. -/
def pdfDynamicsBlock (L : UITable) (odyn : Option Dynamics) : List Flowable :=
  match odyn with
  | none => []
  | some dy =>
    pdfSectionHeader "4" (lookupD L "dynamics" "") ::
    ((if dy.participation_balance ≠ [] then
        [Flowable.para ("<b>" ++ lookupD L "participation" "" ++ ":</b>"),
         Flowable.para (joinSep " | "
           (dy.participation_balance.map (fun sp => esc sp.1 ++ ": " ++ esc sp.2)))]
      else [])
    ++ (if pyTruthy dy.interaction_patterns.interruptions then
          [Flowable.para ("<b>" ++ lookupD L "interruptions" "" ++ ":</b> "
            ++ esc (dy.interaction_patterns.interruptions.getD ""))]
        else [])
    ++ (if dy.emotional_map.enthusiasm_moments ≠ [] then
          Flowable.para ("<b>" ++ lookupD L "enthusiasm" "" ++ ":</b>") ::
          dy.emotional_map.enthusiasm_moments.map (fun x => Flowable.para ("• " ++ esc x))
        else [])
    ++ (if dy.emotional_map.tension_moments ≠ [] then
          Flowable.para ("<b>" ++ lookupD L "tension" "" ++ ":</b>") ::
          dy.emotional_map.tension_moments.map (fun x => Flowable.para ("• " ++ esc x))
        else [])
    ++ (if dy.emotional_map.turning_points ≠ [] then
          Flowable.para ("<b>" ++ lookupD L "turning_points" "" ++ ":</b>") ::
          dy.emotional_map.turning_points.map (fun x => Flowable.para ("• " ++ esc x))
        else [])
    ++ (if dy.unspoken ≠ [] then
          Flowable.para ("<b>" ++ lookupD L "between_lines" "" ++ ":</b>") ::
          dy.unspoken.map (fun u => Flowable.para ("• " ++ esc u))
        else [])
    ++ [.spacer])

/-- One substantive recommendation of the RECOMMENDATIONS section. -/
def pdfSubRecItem (L : UITable) (idx : Nat) (r : SubRec) : List Flowable :=
  let priority := r.priority.getD "medium"
  let p_label :=
    if priority = "high" then "[!!!]"
    else if priority = "medium" then "[!!]"
    else if priority = "low" then "[!]"
    else ""
  [Flowable.keep
    (["<b>" ++ p_label ++ " " ++ lookupD L "recommendation" "" ++ " "
        ++ toString idx ++ ": " ++ esc (r.what.getD "") ++ "</b>"]
      ++ (if pyTruthy r.why then
            [lookupD L "why" "" ++ ": " ++ esc (r.why.getD "")] else [])
      ++ (if pyTruthy r.how then
            [lookupD L "how" "" ++ ": " ++ esc (r.how.getD "")] else [])),
   Flowable.spacer]

/-- The RECOMMENDATIONS section.  The substantive list falls back from
the v3 `substantive` key to the v2 `recommendations` key; the v3
sub-headings are looked up with hard-coded Russian defaults because
none of the five tables contains those keys. -/
def pdfRecsBlock (L : UITable) (orc : Option Recs) : List Flowable :=
  match orc with
  | none => []
  | some rc =>
    [Flowable.hrule, Flowable.para ("<b>" ++ lookupD L "recommendations" "" ++ "</b>")]
    ++ rc.strengths.map (fun s2 => Flowable.para ("✅ " ++ esc s2))
    ++ rc.attention_points.map (fun ap2 => Flowable.para ("⚠ " ++ esc ap2))
    ++ (let recs := rc.substantive.getD (rc.recommendations.getD [])
        if recs ≠ [] then
          [Flowable.spacer,
           Flowable.para ("<b>" ++ lookupD L "by_substance" "По существу вопроса" ++ ":</b>")]
          ++ (recs.enumFrom 1).flatMap (fun ir => pdfSubRecItem L ir.1 ir.2)
        else [])
    ++ (if rc.process ≠ [] then
          [Flowable.spacer,
           Flowable.para ("<b>" ++ lookupD L "by_process" "По процессу" ++ ":</b>")]
          ++ (rc.process.enumFrom 1).flatMap (fun ir =>
            Flowable.para (toString ir.1 ++ ". <b>" ++ esc (ir.2.what.getD "") ++ "</b>") ::
            (if pyTruthy ir.2.how then
              [Flowable.para ("   " ++ esc (ir.2.how.getD ""))] else []))
        else [])
    ++ (if rc.tools_and_methods ≠ [] then
          [Flowable.spacer,
           Flowable.para ("<b>" ++ lookupD L "tools_methods" "Инструменты и методологии" ++ ":</b>")]
          ++ rc.tools_and_methods.map (fun t2 => Flowable.para ("• " ++ esc t2))
        else [])
    ++ (if rc.benchmarks ≠ [] then
          [Flowable.spacer,
           Flowable.para ("<b>" ++ lookupD L "benchmarks" "Бенчмарки и примеры" ++ ":</b>")]
          ++ rc.benchmarks.map (fun b => Flowable.para ("• " ++ esc b))
        else [])
    ++ (if rc.next_meeting_questions ≠ [] then
          [Flowable.spacer, Flowable.para ("<b>" ++ lookupD L "next_meeting" "" ++ ":</b>")]
          ++ rc.next_meeting_questions.map (fun q => Flowable.para ("→ " ++ esc q))
        else [])

/-- The ACTION ITEMS section. -/
def pdfActionItemsBlock (L : UITable) (ais : List ActionItem) : List Flowable :=
  if ais ≠ [] then
    [pdfSectionHeader "5" (lookupD L "tasks" ""),
     .table ([esc (lookupD L "task" ""), esc (lookupD L "responsible" ""),
              esc (lookupD L "deadline" "")]
       :: ais.map (fun a =>
          [esc (a.task.getD ""), esc (a.responsible.getD "–"), esc (a.deadline.getD "–")])),
     .spacer]
  else []

/-- The four `st.insert(3..6, …)` calls of the executive-summary
section, applied only when `executive_summary` is truthy. -/
def pdfExecInsert (exec_sum : String) (st : List Flowable) : List Flowable :=
  if exec_sum ≠ "" then
    ((((st.insertIdx 3 Flowable.spacer).insertIdx 4
        (Flowable.para "<b>EXECUTIVE SUMMARY</b>")).insertIdx 5
        (Flowable.para (esc exec_sum))).insertIdx 6 Flowable.spacer)
  else st

/-- The MEETING GOALS section (v3; its labels are looked up with
hard-coded Russian defaults, and those keys are in no table). -/
def pdfGoalsBlock (L : UITable) (og : Option Goals) : List Flowable :=
  match og with
  | none => []
  | some goals =>
    [pdfSectionHeader "5.1" (lookupD L "meeting_goals" "ЦЕЛИ ВСТРЕЧИ")]
    ++ (if goals.explicit ≠ [] then
          Flowable.para ("<b>" ++ lookupD L "explicit_goals" "Явные цели" ++ ":</b>") ::
          goals.explicit.map (fun g => Flowable.para ("• " ++ esc g))
        else [])
    ++ (if goals.implicit ≠ [] then
          Flowable.para ("<b>" ++ lookupD L "implicit_goals" "Скрытые цели" ++ ":</b>") ::
          goals.implicit.map (fun g => Flowable.para ("• " ++ esc g))
        else [])
    ++ (let rec0 := goals.recommendation.getD ""
        if rec0 ≠ "" then
          [Flowable.spacer,
           Flowable.para ("[" ++ lookupD L "recommendation" "РЕКОМЕНДАЦИЯ" ++ "] " ++ esc rec0)]
        else [])
    ++ [.spacer]

/-- One bucket of the ACTION PLAN section. -/
def pdfPlanList (label : String) (items : List String) : List Flowable :=
  if items ≠ [] then
    Flowable.para ("<b>" ++ label ++ ":</b>") ::
    (items.enumFrom 1).map (fun it => Flowable.para (toString it.1 ++ ". " ++ esc it.2))
  else []

/-- The ACTION PLAN section (v3). -/
def pdfPlanBlock (L : UITable) (ap : ActionPlan) : List Flowable :=
  if ap.urgent ≠ [] ∨ ap.medium_term ≠ [] ∨ ap.long_term ≠ [] ∨ ap.kpi ≠ [] then
    [pdfSectionHeader "5.4" (lookupD L "action_plan_title" "ПЛАН ДАЛЬНЕЙШИХ ДЕЙСТВИЙ")]
    ++ pdfPlanList (lookupD L "urgent" "Срочно (1-7 дней)") ap.urgent
    ++ pdfPlanList (lookupD L "medium_term" "Среднесрок (1-4 недели)") ap.medium_term
    ++ pdfPlanList (lookupD L "long_term" "Долгосрок (1-3 месяца)") ap.long_term
    ++ (if ap.kpi ≠ [] then
          [Flowable.spacer,
           Flowable.para ("<b>" ++ lookupD L "kpi_label" "KPI и метрики успеха" ++ ":</b>")]
          ++ ap.kpi.map (fun k => Flowable.para ("• " ++ esc k))
        else [])
    ++ [.spacer]
  else []

/-- The CONCLUSION section (v3). -/
def pdfConclusionBlock (L : UITable) (con : Conclusion) : List Flowable :=
  if pyTruthy con.main_insight || pyTruthy con.key_recommendation
      || pyTruthy con.forecast then
    [pdfSectionHeader "5.5" (lookupD L "conclusion_title" "ЗАКЛЮЧЕНИЕ ЦИФРОВОГО УМНИКА")]
    ++ (if pyTruthy con.main_insight then
          [Flowable.para ("<b>" ++ lookupD L "main_insight" "Главный инсайт" ++ ":</b> "
            ++ esc (con.main_insight.getD ""))] else [])
    ++ (if pyTruthy con.key_recommendation then
          [Flowable.para ("<b>" ++ lookupD L "key_rec" "Ключевая рекомендация" ++ ":</b> "
            ++ esc (con.key_recommendation.getD ""))] else [])
    ++ (if pyTruthy con.forecast then
          [Flowable.para ("<b>" ++ lookupD L "forecast" "Прогноз" ++ ":</b> "
            ++ esc (con.forecast.getD ""))] else [])
    ++ [.spacer]
  else []

/-- The NEEDS CLARIFICATION section. -/
def pdfUncBlock (L : UITable) (unc : List Uncertainty) : List Flowable :=
  if unc ≠ [] then
    pdfSectionHeader "6" (lookupD L "uncertainties" "") ::
    unc.flatMap (fun u =>
      Flowable.para ("<b>«" ++ esc (u.text.getD "") ++ "»</b>") ::
      ((if pyTruthy u.context then
          [Flowable.para (lookupD L "context" "" ++ ": " ++ esc (u.context.getD ""))]
        else [])
       ++ (if pyTruthy u.possible_meaning then
          [Flowable.para (lookupD L "possibly" "" ++ ": " ++ esc (u.possible_meaning.getD ""))]
          else [])))
    ++ [.spacer]
  else []

/-- The TRANSCRIPTION CORRECTIONS section. -/
def pdfCtBlock (L : UITable) (ct : List CorrectedTerm) : List Flowable :=
  if ct ≠ [] then
    pdfSectionHeader "7" (lookupD L "corrections" "") ::
    ct.map (fun c =>
      Flowable.para ("«" ++ esc (c.original.getD "") ++ "» → <b>"
        ++ esc (c.corrected.getD "") ++ "</b>"))
    ++ [.spacer]
  else []

/-- The GLOSSARY section. -/
def pdfGlBlock (L : UITable) (gl : List GlossaryItem) : List Flowable :=
  if gl ≠ [] then
    pdfSectionHeader "8" (lookupD L "glossary" "") ::
    gl.map (fun g =>
      Flowable.para ("<b>" ++ esc (g.term.getD "") ++ "</b> – "
        ++ esc (g.definition.getD "")))
    ++ [.spacer]
  else []

/-- `pipeline.generate_pdf`, as the story of flowables handed to
`doc.build` (or the Python error the function raises).  `ds` is
`datetime.now().strftime("%Y-%m-%d")` and `sample` the serialized
content sample consumed by `_detect_content_lang` — both produced by
external collaborators.  `cell`/`cell_bold` escape their (string)
argument, so every table-cell text goes through `esc`.

The SWOT section (when any of its four lists is non-empty) and the
risks section (when `risks` is non-empty) build their escaped cell
grids and then evaluate `Table(..., colWidths=[pw…])`; `pw` is not
defined anywhere in the function (every other table uses `W`), so the
whole call raises `NameError` — the SWOT table first, the risks table
otherwise. -/
def generate_pdf (ds sample : String) (analysis : Analysis)
    (lang_code : String) : Except String (List Flowable) :=
  let effective_lang :=
    if lang_code = "original" then detect_content_lang sample else lang_code
  let L := i18nGet effective_lang
  let stA := pdfHeaderBlock L ds ++ pdfSummaryBlock analysis.passport
    ++ pdfPassportBlock L analysis.passport
    ++ pdfTopicsBlock L analysis.topics
    ++ pdfDecisionsBlock L analysis.decisions
    ++ pdfUqBlock L analysis.unresolved_questions
    ++ pdfDynamicsBlock L analysis.dynamics
    ++ pdfRecsBlock L analysis.expert_recommendations
    ++ pdfActionItemsBlock L analysis.action_items
  let stB := pdfExecInsert (analysis.executive_summary.getD "") stA
  let stC := stB ++ pdfGoalsBlock L analysis.meeting_goals
  if analysis.swot.strengths ≠ [] ∨ analysis.swot.weaknesses ≠ []
      ∨ analysis.swot.opportunities ≠ [] ∨ analysis.swot.threats ≠ [] then
    .error nameErrorPw
  else if analysis.risks ≠ [] then
    .error nameErrorPw
  else
    .ok (stC ++ pdfPlanBlock L analysis.action_plan
      ++ pdfConclusionBlock L analysis.conclusion
      ++ pdfUncBlock L analysis.uncertainties
      ++ pdfCtBlock L analysis.corrected_terms
      ++ pdfGlBlock L analysis.glossary
      ++ [.spacer, .hrule,
          .para (lookupD L "brand" "" ++ " • " ++ ds ++ " • " ++ lookupD L "footer" "")])

/-- The per-page header/footer drawn by `generate_pdf._header_footer`:
the brand line at the top and the page/generation line at the bottom. -/
def pdf_header_footer (L : List (String × String)) (page : Nat)
    (genTime : String) : List String :=
  [lookupD L "brand" "",
   lookupD L "page" "" ++ " " ++ toString page ++ " | "
     ++ lookupD L "generated" "" ++ ": " ++ genTime]

/-- File name returned by `generate_pdf`. -/
def pdfFileName (ds : String) (analysis : Analysis) : String :=
  make_slug analysis ++ "_" ++ ds ++ "_report.pdf"

/-! ### `pipeline.generate_html`

The renderer writes one self-contained document.  Literal braces and
apostrophes of the source markup are written `\x7b`, `\x7d`, `\x27`.
The `lang_code` parameter exists in the source signature but is never
read: the markup below hard-codes its Russian UI strings. -/

/-- First quarter of the `<style>` body of the generated page (the
doubled braces of the Python f-string denote literal braces; the style
sheet is one literal in the source and is split in four here only to
keep each piece small). -/
def htmlCssA : String :=
"*\x7bmargin:0;padding:0;box-sizing:border-box\x7d
body\x7bfont-family:-apple-system,BlinkMacSystemFont,\"Segoe UI\",Roboto,sans-serif;background:#f5f5f7;color:#1d1d1f;line-height:1.65;padding:16px\x7d
.w\x7bmax-width:900px;margin:0 auto\x7d
.hd\x7bbackground:linear-gradient(135deg,#1a1a2e,#16213e,#0f3460);color:#fff;padding:32px;border-radius:16px;margin-bottom:20px\x7d
.hd h1\x7bfont-size:26px;margin-bottom:6px\x7d.hd p\x7bopacity:.85;font-size:15px;line-height:1.5\x7d
.s\x7bbackground:#fff;border-radius:12px;padding:24px;margin-bottom:16px;box-shadow:0 2px 8px rgba(0,0,0,.06)\x7d
.s h2\x7bfont-size:20px;margin-bottom:16px;color:#16213e\x7d.s h3\x7bfont-size:16px;margin:16px 0 10px;color:#333\x7d
.nt\x7bdisplay:flex;gap:6px;margin-bottom:16px;flex-wrap:wrap;position:sticky;top:0;background:#f5f5f7;padding:8px 0;z-index:10\x7d
.nb\x7bpadding:8px 16px;border-radius:20px;background:#fff;cursor:pointer;font-size:13px;font-weight:500;border:1px solid #e0e0e0;transition:all .2s\x7d
.nb:hover\x7bbackground:#f0f0f5;border-color:#ccc\x7d.nb.a\x7bbackground:#e94560;color:#fff;border-color:#e94560\x7d
"

/-- Second quarter of the `<style>` body. -/
def htmlCssB : String :=
".pn\x7bdisplay:none\x7d.pn.a\x7bdisplay:block\x7d
.pg\x7bdisplay:grid;grid-template-columns:repeat(auto-fit,minmax(180px,1fr));gap:14px\x7d
.pi .lb\x7bfont-size:11px;color:#e94560;font-weight:600;text-transform:uppercase;letter-spacing:.5px\x7d.pi .vl\x7bfont-size:15px;margin-top:3px;font-weight:500\x7d
.sb\x7bbackground:linear-gradient(135deg,#f0f4ff,#fef0f3);border-left:4px solid #e94560;padding:14px 16px;border-radius:0 8px 8px 0;margin-top:14px;font-size:14px;line-height:1.6\x7d
.tc\x7bborder:1px solid #e8e8ed;border-radius:10px;margin-bottom:10px;overflow:hidden\x7d
.th\x7bdisplay:flex;align-items:center;padding:14px 18px;cursor:pointer;background:#fafafa;gap:12px;transition:background .2s\x7d.th:hover\x7bbackground:#f0f0f5\x7d
.tn\x7bbackground:#e94560;color:#fff;min-width:28px;height:28px;border-radius:50%;display:flex;align-items:center;justify-content:center;font-weight:700;font-size:13px;flex-shrink:0\x7d
.tt\x7bflex:1;font-weight:600;font-size:15px\x7d.ar\x7bcolor:#999;transition:transform .2s\x7d.th.open .ar\x7btransform:rotate(180deg)\x7d
.tb\x7bpadding:20px;border-top:1px solid #e8e8ed\x7d
"

/-- Third quarter of the `<style>` body. -/
def htmlCssC : String :=
".desc\x7bfont-size:14px;color:#333;margin-bottom:14px;line-height:1.7\x7d
.detail-block\x7bmargin-bottom:14px;padding:12px 14px;background:#f9f9fb;border-radius:8px\x7d
.detail-label\x7bfont-weight:600;font-size:13px;color:#16213e;margin-bottom:6px\x7d
.detail-block p\x7bfont-size:13px;line-height:1.7;color:#444\x7d.detail-block ul\x7bpadding-left:18px;font-size:13px\x7d.detail-block li\x7bmargin-bottom:4px\x7d
.pos\x7bbackground:#fff;border:1px solid #eee;border-radius:6px;padding:10px 12px;margin-bottom:6px\x7d.pos-name\x7bfont-weight:600;color:#e94560;font-size:12px;text-transform:uppercase;letter-spacing:.3px\x7d
.pos p\x7bfont-size:13px;margin-top:4px\x7d
.raised\x7bmargin-top:10px;color:#999\x7d
blockquote\x7bborder-left:3px solid #e94560;padding:8px 16px;margin:8px 0;color:#555;font-style:italic;background:#fafafa;border-radius:0 6px 6px 0;font-size:13px\x7d
.di\x7bpadding:12px 14px;border-radius:8px;margin-bottom:8px;background:#f8f8fa;border:1px solid #eee;font-size:14px\x7d.di small\x7bcolor:#888;display:block;margin-top:4px\x7d
"

/-- Fourth quarter of the `<style>` body. -/
def htmlCssD : String :=
".bb\x7bdisplay:flex;align-items:center;margin-bottom:10px\x7d.bl\x7bwidth:130px;font-size:13px;font-weight:500\x7d.bc\x7bflex:1;height:22px;background:#e8e8ed;border-radius:11px;overflow:hidden;margin:0 12px\x7d.bf\x7bheight:100%;background:linear-gradient(90deg,#e94560,#0f3460);border-radius:11px;transition:width .5s\x7d
.em-block\x7bmargin-bottom:12px\x7d.em-block h4\x7bfont-size:14px;margin-bottom:6px\x7d.em-item\x7bfont-size:13px;padding:3px 0;color:#555\x7d
.rc\x7bpadding:14px;border-radius:8px;margin-bottom:8px;border:1px solid #eee;font-size:14px;line-height:1.6\x7d
.rc-ok\x7bbackground:#f0fdf4;border-color:#bbf7d0\x7d.rc-warn\x7bbackground:#fffbeb;border-color:#fde68a\x7d.rc-rec\x7bbackground:#f8f8fa\x7d
.rc-why,.rc-how\x7bfont-size:13px;color:#555;margin-top:6px\x7d
.unc-item\x7bpadding:12px;background:#fffbeb;border:1px solid #fde68a;border-radius:8px;margin-bottom:8px\x7d
.unc-text\x7bfont-weight:600;font-size:14px\x7d.unc-ctx,.unc-mean\x7bfont-size:13px;color:#666;margin-top:4px\x7d
"

/-- Fifth piece of the `<style>` body. -/
def htmlCssE : String :=
".ct-item\x7bdisplay:flex;gap:8px;align-items:center;padding:6px 0;font-size:14px\x7d.ct-old\x7btext-decoration:line-through;color:#999\x7d.ct-new\x7bfont-weight:600;color:#16213e\x7d
.gl-item\x7bdisplay:flex;gap:12px;padding:10px 0;border-bottom:1px solid #f0f0f0\x7d.gl-term\x7bfont-weight:600;min-width:140px;color:#16213e;font-size:14px\x7d.gl-def\x7bfont-size:13px;color:#555;line-height:1.5\x7d
.tr-box\x7bbackground:#fafafa;border-radius:8px;padding:20px;font-family:monospace;font-size:12px;line-height:1.8;max-height:70vh;overflow-y:auto;white-space:pre-wrap;word-break:break-word\x7d
.ft\x7btext-align:center;padding:20px;color:#999;font-size:12px\x7d
li.unr\x7bcolor:#d97706;font-weight:500\x7d
@media(max-width:600px)\x7b.pg\x7bgrid-template-columns:1fr\x7d.nb\x7bfont-size:12px;padding:6px 10px\x7d.bl\x7bwidth:90px\x7d\x7d"

/-- The whole `<style>` body, as in the source. -/
def htmlCss : String :=
  htmlCssA ++ htmlCssB ++ htmlCssC ++ htmlCssD ++ htmlCssE

/-- The `<script>` tail of the generated page. -/
def htmlScript : String :=
"<script>
function go(id)\x7bdocument.querySelectorAll(\x27.pn\x27).forEach(x=>x.classList.remove(\x27a\x27));document.querySelectorAll(\x27.nb\x27).forEach(x=>x.classList.remove(\x27a\x27));document.getElementById(\x27p-\x27+id).classList.add(\x27a\x27);event.target.classList.add(\x27a\x27)\x7d
function tog(el)\x7bvar b=el.nextElementSibling;var isOpen=b.style.display!==\x27none\x27;b.style.display=isOpen?\x27none\x27:\x27block\x27;el.classList.toggle(\x27open\x27,!isOpen)\x7d
</script></body></html>"

/-- One collapsible topic card of the topics tab. -/
def htmlTopicItem (i : Nat) (t : Topic) : String :=
  let kps := String.join (t.key_points.map (fun k => "<li>" ++ esc k ++ "</li>"))
  let pos := String.join (t.positions.map (fun sv =>
    "<div class=\"pos\"><span class=\"pos-name\">" ++ esc sv.1
      ++ "</span><p>" ++ esc sv.2 ++ "</p></div>"))
  let quotes := String.join (t.quotes.map (fun q =>
    "<blockquote>«" ++ esc q ++ "»</blockquote>"))
  let unr := String.join (t.unresolved.map (fun u =>
    "<li class=\"unr\">❓ " ++ esc u ++ "</li>"))
  let detail := esc (t.detailed_discussion.getD "")
  let detail_html := if detail ≠ "" then
    "<div class=\"detail-block\"><div class=\"detail-label\">💬 Ход обсуждения</div><p>"
      ++ detail ++ "</p></div>" else ""
  let kps_html := if kps ≠ "" then
    "<div class=\"detail-block\"><div class=\"detail-label\">📌 Ключевые тезисы</div><ul>"
      ++ kps ++ "</ul></div>" else ""
  let pos_html := if pos ≠ "" then
    "<div class=\"detail-block\"><div class=\"detail-label\">👥 Позиции участников</div>"
      ++ pos ++ "</div>" else ""
  let outcome_html := if pyTruthy t.outcome then
    "<div class=\"detail-block\"><div class=\"detail-label\">🎯 Итог</div><p>"
      ++ esc (t.outcome.getD "") ++ "</p></div>" else ""
  let quotes_html := if quotes ≠ "" then
    "<div class=\"detail-block\"><div class=\"detail-label\">💬 Цитаты</div>"
      ++ quotes ++ "</div>" else ""
  let unr_html := if unr ≠ "" then
    "<div class=\"detail-block\"><div class=\"detail-label\">❓ Нерешённые вопросы</div><ul>"
      ++ unr ++ "</ul></div>" else ""
  "<div class=\"tc\">\n<div class=\"th\" onclick=\"tog(this)\"><span class=\"tn\">"
  ++ toString i ++ "</span><span class=\"tt\">" ++ esc (t.title.getD "")
  ++ "</span><span class=\"ar\">▼</span></div>\n<div class=\"tb\" style=\"display:none\">\n<div class=\"desc\">"
  ++ esc (t.description.getD "") ++ "</div>\n" ++ detail_html ++ "\n" ++ kps_html
  ++ "\n" ++ pos_html ++ "\n" ++ outcome_html ++ "\n" ++ quotes_html ++ "\n" ++ unr_html
  ++ "\n<p class=\"raised\"><small>Тему поднял(а): " ++ esc (t.raised_by.getD "")
  ++ "</small></p>\n</div></div>"

/-- The decisions-and-tasks tab content. -/
def htmlDecTasksStr (decs : List Decision) (ais : List ActionItem) : String :=
  let dh1 := if decs ≠ [] then
    "<h3>✅ Принятые решения</h3>" ++ String.join (decs.map (fun d =>
      let status := d.status.getD ""
      let ic := if status = "accepted" then "✅"
        else if status = "pending" then "⏳" else "•"
      "<div class=\"di\">" ++ ic ++ " <b>" ++ esc (d.decision.getD "")
        ++ "</b><br><small>Ответственный: " ++ esc (d.responsible.getD "—")
        ++ "</small></div>"))
    else ""
  let dh2 := if ais ≠ [] then
    "<h3>📋 Задачи</h3>" ++ String.join (ais.map (fun a =>
      "<div class=\"di\">📌 <b>" ++ esc (a.task.getD "") ++ "</b><br><small>"
        ++ esc (a.responsible.getD "—") ++ " • " ++ esc (a.deadline.getD "—")
        ++ "</small></div>"))
    else ""
  if decs = [] ∧ ais = [] then
    "<p>Конкретных решений и задач не зафиксировано.</p>"
  else dh1 ++ dh2

/-- The participation-balance bars. -/
def htmlBalanceStr (balance : List (String × String)) : String :=
  String.join (balance.map (fun sv =>
    let n := (String.toNat? ⟨sv.2.data.filter Char.isDigit⟩).getD 0
    "<div class=\"bb\"><span class=\"bl\">" ++ esc sv.1
      ++ "</span><div class=\"bc\"><div class=\"bf\" style=\"width:" ++ toString n
      ++ "%\"></div></div><span>" ++ esc sv.2 ++ "</span></div>"))

/-- One emotional-map block. -/
def htmlEmoBlock (icon label : String) (items : List String) : String :=
  if items ≠ [] then
    "<div class=\"em-block\"><h4>" ++ icon ++ " " ++ label ++ "</h4>"
      ++ String.join (items.map (fun it => "<div class=\"em-item\">• " ++ esc it ++ "</div>"))
      ++ "</div>"
  else ""

/-- The emotional map including the unspoken block. -/
def htmlEmoStr (dy : Dynamics) : String :=
  htmlEmoBlock "🔥" "Энтузиазм" dy.emotional_map.enthusiasm_moments
  ++ htmlEmoBlock "⚡" "Напряжение" dy.emotional_map.tension_moments
  ++ htmlEmoBlock "🔄" "Переломы" dy.emotional_map.turning_points
  ++ htmlEmoBlock "🤔" "Неуверенность" dy.emotional_map.uncertainty_moments
  ++ (if dy.unspoken ≠ [] then
        "<div class=\"em-block\"><h4>🤫 Между строк</h4>"
        ++ String.join (dy.unspoken.map (fun u =>
            "<div class=\"em-item\">• " ++ esc u ++ "</div>"))
        ++ "</div>"
      else "")

/-- The interaction-patterns paragraphs. -/
def htmlInteractStr (ip : InteractionPatterns) : String :=
  (if pyTruthy ip.interruptions then
    "<p><b>Перебивания:</b> " ++ esc (ip.interruptions.getD "") ++ "</p>" else "")
  ++ (if ip.topic_initiators ≠ [] then
    "<p><b>Инициаторы тем:</b> " ++ joinSep ", " (ip.topic_initiators.map esc) ++ "</p>"
    else "")

/-- The recommendations tab content; note the source reads only the v2
`recommendations` key here, never `substantive`. -/
def htmlRecsStr (rc : Recs) : String :=
  String.join (rc.strengths.map (fun s2 =>
    "<div class=\"rc rc-ok\">✅ " ++ esc s2 ++ "</div>"))
  ++ String.join (rc.attention_points.map (fun ap =>
    "<div class=\"rc rc-warn\">⚠️ " ++ esc ap ++ "</div>"))
  ++ String.join ((rc.recommendations.getD []).map (fun r =>
    let pr := r.priority.getD ""
    let ic := if pr = "high" then "🔴" else if pr = "medium" then "🟡"
      else if pr = "low" then "🟢" else "•"
    let why_html := if pyTruthy r.why then
      "<p class=\"rc-why\"><b>Почему:</b> " ++ esc (r.why.getD "") ++ "</p>" else ""
    let how_html := if pyTruthy r.how then
      "<p class=\"rc-how\"><b>Как:</b> " ++ esc (r.how.getD "") ++ "</p>" else ""
    "<div class=\"rc rc-rec\">" ++ ic ++ " <b>" ++ esc (r.what.getD "") ++ "</b>"
      ++ why_html ++ how_html ++ "</div>"))
  ++ (if rc.next_meeting_questions ≠ [] then
    "<h3>❓ Вопросы для следующей встречи</h3>"
      ++ String.join (rc.next_meeting_questions.map (fun q =>
          "<div class=\"rc\">→ " ++ esc q ++ "</div>"))
    else "")

/-- The uncertainty cards. -/
def htmlUncStr (unc : List Uncertainty) : String :=
  String.join (unc.map (fun u =>
    "<div class=\"unc-item\"><div class=\"unc-text\">⚠️ «" ++ esc (u.text.getD "")
      ++ "»</div>\n<div class=\"unc-ctx\">Контекст: " ++ esc (u.context.getD "")
      ++ "</div>\n<div class=\"unc-mean\">Возможно: " ++ esc (u.possible_meaning.getD "")
      ++ "</div></div>"))

/-- The corrected-terms rows. -/
def htmlCtStr (ct : List CorrectedTerm) : String :=
  String.join (ct.map (fun c =>
    "<div class=\"ct-item\"><span class=\"ct-old\">" ++ esc (c.original.getD "")
      ++ "</span> → <span class=\"ct-new\">" ++ esc (c.corrected.getD "")
      ++ "</span></div>"))

/-- The glossary rows. -/
def htmlGlStr (gl : List GlossaryItem) : String :=
  String.join (gl.map (fun g =>
    "<div class=\"gl-item\"><div class=\"gl-term\">" ++ esc (g.term.getD "")
      ++ "</div><div class=\"gl-def\">" ++ esc (g.definition.getD "")
      ++ "</div></div>"))

/-- The raw-transcript viewer body: escaped text with newlines turned
into `<br>`, or the unavailability note. -/
def htmlTrStr (transcript_text : String) : String :=
  if transcript_text ≠ "" then
    ⟨replace1 '\n' "<br>".data (esc transcript_text).data⟩
  else "<p>Транскрипция недоступна</p>"

/-- The sticky tab bar. -/
def htmlNavStr (nTopics : Nat) (unc_tab gl_tab : String) : String :=
  "<div class=\"nt\">\n<button class=\"nb a\" onclick=\"go(\x27ov\x27)\">📋 Обзор</button>\n<button class=\"nb\" onclick=\"go(\x27tp\x27)\">🎯 Темы ("
  ++ toString nTopics
  ++ ")</button>\n<button class=\"nb\" onclick=\"go(\x27dc\x27)\">📌 Решения и задачи</button>\n<button class=\"nb\" onclick=\"go(\x27dy\x27)\">📊 Динамика</button>\n<button class=\"nb\" onclick=\"go(\x27rc\x27)\">💡 Рекомендации</button>\n"
  ++ unc_tab ++ "\n" ++ gl_tab
  ++ "\n<button class=\"nb\" onclick=\"go(\x27tr\x27)\">📝 Транскрипт</button>\n</div>\n"

/-- The interpolation pieces of the `generate_html` document template,
in order: their concatenation (`strJoin`) is exactly the f-string of
the source.  Keeping the pieces as a list lets theorems reason about
the document one piece at a time. -/
def htmlPieces (ds : String) (analysis : Analysis) (transcript_text : String) :
    List String :=
  let p := analysis.passport
  let topics := analysis.topics
  let dy := analysis.dynamics.getD {}
  let rc := analysis.expert_recommendations.getD {}
  let unc := analysis.uncertainties
  let ct := analysis.corrected_terms
  let gl := analysis.glossary
  let th := String.join ((topics.enumFrom 1).map (fun it => htmlTopicItem it.1 it.2))
  let dh := htmlDecTasksStr analysis.decisions analysis.action_items
  let bh := htmlBalanceStr dy.participation_balance
  let emh := htmlEmoStr dy
  let iph := htmlInteractStr dy.interaction_patterns
  let rh := htmlRecsStr rc
  let unch := htmlUncStr unc
  let cth := htmlCtStr ct
  let glh := htmlGlStr gl
  let trh := htmlTrStr transcript_text
  let dy_balance := if bh ≠ "" then "<h3>Баланс участия</h3>" ++ bh else ""
  let dy_interact := if iph ≠ "" then "<h3>Взаимодействие</h3>" ++ iph else ""
  let dy_emotional := if emh ≠ "" then "<h3>Эмоциональная карта</h3>" ++ emh else ""
  let unc_section :=
    if unc ≠ [] ∨ ct ≠ [] then
      (if unch ≠ "" then "<h3>Неоднозначные моменты</h3>" ++ unch else "")
        |> fun unc_inner =>
      (if cth ≠ "" then "<h3>Исправления распознавания</h3>" ++ cth else "")
        |> fun ct_inner =>
      "<div id=\"p-un\" class=\"pn\"><div class=\"s\"><h2>⚠️ Требует уточнения</h2>"
        ++ unc_inner ++ ct_inner ++ "</div></div>"
    else ""
  let gl_section :=
    if gl ≠ [] then
      "<div id=\"p-gl\" class=\"pn\"><div class=\"s\"><h2>📖 Глоссарий</h2><p style=\"color:#888;margin-bottom:14px;font-size:13px\">Ключевые термины из области обсуждения</p>"
        ++ glh ++ "</div></div>"
    else ""
  let unc_tab :=
    if unc ≠ [] ∨ ct ≠ [] then
      "<button class=\"nb\" onclick=\"go(\x27un\x27)\">⚠️ Уточнения</button>"
    else ""
  let gl_tab :=
    if gl ≠ [] then
      "<button class=\"nb\" onclick=\"go(\x27gl\x27)\">📖 Глоссарий</button>"
    else ""
  let pcount := match p.participants_count with
    | some n => toString n
    | none => ""
  ["<!DOCTYPE html><html lang=\"ru\"><head><meta charset=\"UTF-8\"><meta name=\"viewport\" content=\"width=device-width,initial-scale=1\">\n<title>Цифровой Умник – ",
   esc (analysis.meeting_topic_short.getD "Отчёт"),
   "</title><style>\n",
   htmlCssA, htmlCssB, htmlCssC, htmlCssD, htmlCssE,
   "\n</style></head><body><div class=\"w\">\n<div class=\"hd\"><h1>🧠 Цифровой Умник</h1><p>",
   esc (p.summary.getD ""),
   "</p></div>\n",
   htmlNavStr topics.length unc_tab gl_tab,
   "<div id=\"p-ov\" class=\"pn a\"><div class=\"s\"><h2>📋 Обзор встречи</h2><div class=\"pg\">\n<div class=\"pi\"><div class=\"lb\">Дата</div><div class=\"vl\">",
   esc (p.date.getD ""),
   "</div></div>\n<div class=\"pi\"><div class=\"lb\">Длительность</div><div class=\"vl\">",
   esc (p.duration_estimate.getD ""),
   "</div></div>\n<div class=\"pi\"><div class=\"lb\">Участники</div><div class=\"vl\">",
   esc pcount,
   "</div></div>\n<div class=\"pi\"><div class=\"lb\">Формат</div><div class=\"vl\">",
   esc (p.format.getD ""),
   "</div></div>\n<div class=\"pi\"><div class=\"lb\">Область</div><div class=\"vl\">",
   esc (p.domain.getD ""),
   "</div></div>\n<div class=\"pi\"><div class=\"lb\">Тон</div><div class=\"vl\">",
   esc (p.tone.getD ""),
   "</div></div>\n</div><div class=\"sb\">",
   esc (p.summary.getD ""),
   "</div></div></div>\n<div id=\"p-tp\" class=\"pn\"><div class=\"s\"><h2>🎯 Темы обсуждения</h2>",
   th,
   "</div></div>\n<div id=\"p-dc\" class=\"pn\"><div class=\"s\"><h2>📌 Решения и задачи</h2>",
   dh,
   "</div></div>\n<div id=\"p-dy\" class=\"pn\"><div class=\"s\"><h2>📊 Динамика встречи</h2>",
   dy_balance, dy_interact, dy_emotional,
   "</div></div>\n<div id=\"p-rc\" class=\"pn\"><div class=\"s\"><h2>💡 Рекомендации Цифрового Умника</h2>",
   rh,
   "</div></div>\n", unc_section, "\n", gl_section,
   "\n<div id=\"p-tr\" class=\"pn\"><div class=\"s\"><h2>📝 Транскрипция</h2><div class=\"tr-box\">",
   trh,
   "</div></div></div>\n<div class=\"ft\">Цифровой Умник • ",
   ds,
   " • AI-анализ встречи</div></div>\n",
   htmlScript]

set_option linter.unusedVariables false in
/-- `pipeline.generate_html`: the document written to disk — the
concatenation of the template pieces.  `ds` is the generation date
from `datetime.now()`; `lang_code` is accepted as in the source and
never read (no UI string of this renderer is localized). -/
def generate_html (ds : String) (analysis : Analysis) (transcript_text : String)
    (lang_code : String) : String :=
  strJoin (htmlPieces ds analysis transcript_text)

/-- File name returned by `generate_html`. -/
def htmlFileName (ds : String) (analysis : Analysis) : String :=
  make_slug analysis ++ "_" ++ ds ++ "_interactive.html"

/-- `pipeline.generate_txt`: the text written to disk — a header with
the topic and date, then the verbatim speaker transcript. -/
def generate_txt (ds : String) (analysis : Analysis) (transcript_text : String) :
    String :=
  "ТРАНСКРИПЦИЯ\n" ++ (⟨List.replicate 50 '='⟩ : String) ++ "\nТема: "
  ++ analysis.meeting_topic_short.getD "" ++ "\nДата: " ++ ds ++ "\n"
  ++ (⟨List.replicate 50 '='⟩ : String) ++ "\n\n" ++ transcript_text

/-- File name returned by `generate_txt`. -/
def txtFileName (ds : String) (analysis : Analysis) : String :=
  make_slug analysis ++ "_" ++ ds ++ "_transcription.txt"

/-! ## Workflow orchestration (`bot.process_meeting`) -/

/-- Outcome of one run. -/
inductive RunOutcome
  | noSources
  | failed (msg : String)
  | completed
deriving DecidableEq, Repr

/-- Sequential download-and-transcribe of the pending sources: there is
no per-source `try`, so the first raising source aborts the whole run
(the outer `except` path). -/
def collectSources : List (Except String Transcript) →
    Except String (List Transcript)
  | [] => .ok []
  | .error e :: _ => .error e
  | .ok t :: rest =>
    match collectSources rest with
    | .error e => .error e
    | .ok ts => .ok (t :: ts)

/-- `bot.process_meeting` as a state transformer on the session.
`sources` are the outcomes of the external download+`transcribe_file`
calls for the pending files then links, in order; `analysisResult` the
outcome of the external `analyze_meeting` call; `delivery` the combined
outcome of the transport work that still runs inside the `try` *after*
the caches are overwritten — the final progress edit, the preview and
caption messages, the three `send_document` calls, the
translate-button message and the temp-file removal — an exception in
any of which fails the run with the new caches already in place.
Mirrored control flow: set `processing`; collect transcripts (any
raise goes to the `except`/`finally` path); empty → the "nothing
processed" reset; merge; cache the merged transcript
(`s["last_transcript_data"] = merged`) *before* analysis; analyze
(raise → `except`/`finally`); render the three reports (`generate_pdf`
raises on SWOT/risk content, `except`/`finally`); store
`last_analysis`/`last_transcript`; deliver (raise →
`except`/`finally`); `finally: reset_session`. -/
def process_meeting (s : Session) (sources : List (Except String Transcript))
    (analysisResult : Except String Analysis) (delivery : Except String Unit)
    (lang_code ds sample : String) : Session × RunOutcome :=
  match collectSources sources with
  | .error e => (reset_session { s with processing := true }, .failed e)
  | .ok [] => (reset_session { s with processing := true }, .noSources)
  | .ok (t :: rest) =>
    match analysisResult with
    | .error e =>
      (reset_session { s with
          processing := true
          last_transcript_data := some (merge1 t rest) }, .failed e)
    | .ok analysis =>
      match generate_pdf ds sample analysis lang_code with
      | .error e =>
        (reset_session { s with
            processing := true
            last_transcript_data := some (merge1 t rest) }, .failed e)
      | .ok _ =>
        match delivery with
        | .error e =>
          (reset_session { s with
              processing := true
              last_transcript_data := some (merge1 t rest)
              last_analysis := some analysis
              last_transcript := some (merge1 t rest).speaker_transcript },
           .failed e)
        | .ok _ =>
          (reset_session { s with
              processing := true
              last_transcript_data := some (merge1 t rest)
              last_analysis := some analysis
              last_transcript := some (merge1 t rest).speaker_transcript },
           .completed)

/-! ## Concrete test fixtures used by the theorems below -/

/-- A transcription result with 2 speakers and 60 seconds. -/
def tA : Transcript :=
  { full_text := "Первый текст встречи"
    speaker_transcript := "[00:00] **Собеседник 1:**\nПривет"
    speakers_count := 2, detected_language := "ru", duration_seconds := 60 }

/-- A transcription result with 3 speakers and 90 seconds. -/
def tB : Transcript :=
  { full_text := "Second meeting text"
    speaker_transcript := "[00:00] **Собеседник 2:**\nHello"
    speakers_count := 3, detected_language := "en", duration_seconds := 90 }

/-- A transcription result with 1 speaker and 30 seconds. -/
def tC : Transcript :=
  { full_text := "Третий текст"
    speaker_transcript := "[00:00] **Собеседник 1:**\nИтоги"
    speakers_count := 1, detected_language := "ru", duration_seconds := 30 }

/-- Scenario C of the spec: one risk with probability `высокая` and no
`mitigation` field. -/
def riskDoc : Analysis :=
  { risks := [{ risk := some "Срыв сроков", probability := some "высокая" }] }

/-- A document whose only content is a meeting-goals block. -/
def goalsDoc : Analysis :=
  { meeting_goals := some { explicit := ["Ship the v2 report"] } }

/-- A document whose only content is a conclusion block. -/
def concDoc : Analysis :=
  { conclusion := { main_insight := some "ΩInsight" } }

/-- A document with a topic title containing raw markup characters. -/
def scriptDoc : Analysis :=
  { topics := [{ title := some "<script>&test</script>" }] }

/-- A document exercising both the sections shared by the PDF and the
HTML renderer and those only the PDF renders; every value belonging to
a PDF-only section carries the sentinel character `Ω`, which no other
part of the HTML output contains. -/
def richDoc : Analysis :=
  { topics := [{ title := some "Quarterly roadmap review" }]
    decisions := [{ decision := some "Adopt plan Alpha", status := some "accepted" }]
    action_items := [{ task := some "Prepare budget draft" }]
    conclusion := { main_insight := some "ΩInsight" }
    unresolved_questions := [{ question := some "ΩQuestion" }]
    swot := { strengths := ["ΩStrength"] }
    risks := [{ risk := some "ΩRisk", probability := some "высокая" }]
    expert_recommendations := some { substantive := some [{ what := some "ΩSubstantive" }] }
    action_plan := { urgent := ["ΩUrgent"] } }

/-- A session holding a populated re-render cache from an earlier
completed run. -/
def cachedSession : Session :=
  { files := [], urls := [], processing := false
    last_analysis := some goalsDoc
    last_transcript := some "старый транскрипт"
    last_transcript_data := some tA }

/-- A busy session with no cache (first-ever run still in progress). -/
def busySession : Session :=
  { freshSession with processing := true }

/-- Whether a (successful) PDF story contains the given paragraph. -/
def pdfHasPara (r : Except String (List Flowable)) (t : String) : Bool :=
  match r with
  | .error _ => false
  | .ok fl => fl.any (fun f =>
      match f with
      | .para s => s = t
      | _ => false)

/-- The HTML report rendered for `richDoc`. -/
def richHtml : String :=
  generate_html "2024-01-01" richDoc "transcript line" "ru"

end MeetingAnalyzer

namespace MeetingAnalyzer

/-! ## Infrastructure lemmas -/

theorem leadsWith_iff : ∀ (p l : List Char), leadsWith p l = true ↔ p <+: l
  | [], l => by simp [leadsWith]
  | _ :: _, [] => by simp [leadsWith]
  | a :: ps, x :: xs => by
    simp [leadsWith, leadsWith_iff ps xs, List.cons_prefix_cons]

theorem containsSub_iff (p : List Char) : ∀ (l : List Char),
    containsSub p l = true ↔ p <:+: l
  | [] => by simp [containsSub, List.isEmpty_iff]
  | x :: xs => by
    simp [containsSub, leadsWith_iff, containsSub_iff p xs, List.infix_cons_iff]

theorem charFreeL_iff (c : Char) : ∀ (l : List Char),
    charFreeL c l = true ↔ c ∉ l
  | [] => by simp [charFreeL]
  | x :: xs => by
    simp only [charFreeL, Bool.and_eq_true, Bool.not_eq_true',
      decide_eq_false_iff_not, charFreeL_iff c xs, List.mem_cons, not_or]
    constructor
    · rintro ⟨h1, h2⟩
      exact ⟨fun hEq => h1 hEq.symm, h2⟩
    · rintro ⟨h1, h2⟩
      exact ⟨fun hEq => h1 hEq.symm, h2⟩

theorem infix_data_appL {p : List Char} (a b : String) (h : p <:+: a.data) :
    p <:+: (a ++ b).data := by
  obtain ⟨s, t, hst⟩ := h
  exact ⟨s, t ++ b.data, by rw [String.data_append, ← hst]; simp⟩

theorem infix_data_appR {p : List Char} (a b : String) (h : p <:+: b.data) :
    p <:+: (a ++ b).data := by
  obtain ⟨s, t, hst⟩ := h
  exact ⟨a.data ++ s, t, by rw [String.data_append, ← hst]; simp⟩

theorem anyContains_strJoin {p : List Char} : ∀ {l : List String},
    anyContains p l = true → p <:+: (strJoin l).data
  | [] => by simp [anyContains]
  | s :: rest => by
    simp only [anyContains, Bool.or_eq_true]
    rintro (h | h)
    · exact infix_data_appL s (strJoin rest) ((containsSub_iff p s.data).1 h)
    · exact infix_data_appR s (strJoin rest) (anyContains_strJoin h)

theorem allCharFree_strJoin {c : Char} : ∀ {l : List String},
    allCharFree c l = true → c ∉ (strJoin l).data
  | [] => by intro _ h; simp [strJoin] at h
  | s :: rest => by
    simp only [allCharFree, Bool.and_eq_true]
    rintro ⟨h1, h2⟩ hmem
    rw [show strJoin (s :: rest) = s ++ strJoin rest from rfl,
      String.data_append, List.mem_append] at hmem
    rcases hmem with h | h
    · exact (charFreeL_iff c s.data).1 h1 h
    · exact allCharFree_strJoin h2 h

theorem not_infix_of_sentinel {c : Char} {p l : List Char}
    (hc : c ∈ p) (hl : c ∉ l) : ¬ p <:+: l :=
  fun h => hl (h.subset hc)

theorem infix_ne_empty {p : List Char} {s : String}
    (hp : p ≠ []) (h : p <:+: s.data) : s ≠ "" := by
  rintro rfl
  exact hp (List.eq_nil_of_infix_nil h)

theorem replace1_append (c : Char) (r : List Char) (l₁ l₂ : List Char) :
    replace1 c r (l₁ ++ l₂) = replace1 c r l₁ ++ replace1 c r l₂ := by
  induction l₁ with
  | nil => rfl
  | cons x xs ih => simp [replace1, ih]

theorem escList_eq : ∀ (l : List Char),
    replace1 '>' "&gt;".data (replace1 '<' "&lt;".data
      (replace1 '&' "&amp;".data l)) = escL l
  | [] => rfl
  | x :: xs => by
    rw [show replace1 '&' "&amp;".data (x :: xs)
        = (if x = '&' then "&amp;".data else [x]) ++ replace1 '&' "&amp;".data xs
        from rfl,
      replace1_append, replace1_append, escList_eq xs]
    show _ ++ escL xs = escL (x :: xs)
    rw [show escL (x :: xs) = escChar x ++ escL xs from rfl]
    congr 1
    by_cases h1 : x = '&'
    · subst h1; rfl
    · by_cases h2 : x = '<'
      · subst h2; rfl
      · by_cases h3 : x = '>'
        · subst h3; rfl
        · simp [replace1, escChar, h1, h2, h3]

theorem esc_data (s : String) : (esc s).data = escL s.data :=
  escList_eq s.data

theorem wellEscaped_other {c : Char} (rest : List Char)
    (h1 : c ≠ '<') (h2 : c ≠ '>') (h3 : c ≠ '&') :
    wellEscaped (c :: rest) = wellEscaped rest := by
  simp [wellEscaped, h1, h2, h3]

theorem wellEscaped_escChar (c : Char) (rest : List Char)
    (h : wellEscaped rest = true) : wellEscaped (escChar c ++ rest) = true := by
  by_cases h1 : c = '&'
  · subst h1
    exact (show wellEscaped (escChar '&' ++ rest) = wellEscaped rest from rfl).trans h
  · by_cases h2 : c = '<'
    · subst h2
      exact (show wellEscaped (escChar '<' ++ rest) = wellEscaped rest from rfl).trans h
    · by_cases h3 : c = '>'
      · subst h3
        exact (show wellEscaped (escChar '>' ++ rest) = wellEscaped rest from rfl).trans h
      · rw [show escChar c ++ rest = c :: rest by simp [escChar, h1, h2, h3],
          wellEscaped_other rest h2 h3 h1]
        exact h

theorem wellEscaped_escL : ∀ (l : List Char), wellEscaped (escL l) = true
  | [] => rfl
  | c :: cs => wellEscaped_escChar c (escL cs) (wellEscaped_escL cs)

theorem esc_wellEscaped (s : String) : wellEscaped (esc s).data = true := by
  rw [esc_data]; exact wellEscaped_escL s.data

theorem wellEscaped_no_raw : ∀ {l : List Char}, wellEscaped l = true →
    '<' ∉ l ∧ '>' ∉ l := by
  intro l
  induction l with
  | nil => simp
  | cons c cs ih =>
    intro h
    by_cases h1 : c = '<'
    · subst h1; simp [wellEscaped] at h
    · by_cases h2 : c = '>'
      · subst h2; simp [wellEscaped] at h
      · have h' : wellEscaped cs = true := by
          by_cases h3 : c = '&'
          · subst h3
            rw [show wellEscaped ('&' :: cs)
                = ((leadsWith "amp;".data cs || leadsWith "lt;".data cs
                    || leadsWith "gt;".data cs) && wellEscaped cs) from rfl,
              Bool.and_eq_true] at h
            exact h.2
          · rwa [wellEscaped_other cs h1 h2 h3] at h
        obtain ⟨hl, hg⟩ := ih h'
        refine ⟨?_, ?_⟩ <;> intro hmem <;>
          rcases List.mem_cons.1 hmem with hEq | hmem2
        · exact h1 hEq.symm
        · exact hl hmem2
        · exact h2 hEq.symm
        · exact hg hmem2

theorem foldl_max_le_init (l : List Nat) : ∀ (a : Nat), a ≤ l.foldl Nat.max a := by
  induction l with
  | nil => intro a; exact Nat.le_refl a
  | cons x xs ih =>
    intro a
    exact Nat.le_trans (Nat.le_max_left a x) (ih (Nat.max a x))

theorem le_foldl_max_of_mem {x : Nat} : ∀ {l : List Nat} (a : Nat), x ∈ l →
    x ≤ l.foldl Nat.max a := by
  intro l
  induction l with
  | nil => intro a h; cases h
  | cons y ys ih =>
    intro a h
    rcases List.mem_cons.1 h with rfl | h2
    · exact Nat.le_trans (Nat.le_max_right a x) (foldl_max_le_init ys (Nat.max a x))
    · exact ih (Nat.max a y) h2

theorem foldl_max_mem : ∀ (l : List Nat) (a : Nat),
    l.foldl Nat.max a = a ∨ l.foldl Nat.max a ∈ l := by
  intro l
  induction l with
  | nil => intro a; exact Or.inl rfl
  | cons x xs ih =>
    intro a
    rcases ih (Nat.max a x) with h | h
    · rcases Nat.le_total a x with hle | hle
      · right
        have hm : Nat.max a x = x := Nat.max_eq_right hle
        rw [show List.foldl Nat.max a (x :: xs) = List.foldl Nat.max (Nat.max a x) xs
            from rfl, h, hm]
        exact List.mem_cons_self x xs
      · left
        have hm : Nat.max a x = a := Nat.max_eq_left hle
        rw [show List.foldl Nat.max a (x :: xs) = List.foldl Nat.max (Nat.max a x) xs
            from rfl, h, hm]
    · right
      exact List.mem_cons_of_mem x h

theorem le_listMaxNat {x : Nat} {l : List Nat} (h : x ∈ l) : x ≤ listMaxNat l :=
  le_foldl_max_of_mem 0 h

theorem listMaxNat_mem {l : List Nat} (h : l ≠ []) : listMaxNat l ∈ l := by
  cases l with
  | nil => exact absurd rfl h
  | cons x xs =>
    rcases foldl_max_mem (x :: xs) 0 with h0 | h0
    · have hx : x ≤ listMaxNat (x :: xs) :=
        le_listMaxNat (List.mem_cons_self x xs)

      have h0' : listMaxNat (x :: xs) = 0 := h0
      have hx0 : x = 0 := Nat.le_zero.1 (h0' ▸ hx)
      rw [h0', ← hx0]
      exact List.mem_cons_self x xs
    · exact h0

/-! ## Claim theorems -/

/-- C5: merging the one-element sequence `[x]` returns `x` unchanged —
no separator is inserted and every field passes through identically
(the `len == 1` branch of the merge). -/
theorem merge_single_identity (x : Transcript) : mergeTranscripts [x] = some x :=
  rfl

/-- C6: for every non-empty sequence of transcription results, the
merged transcript's speaker count is the maximum of the inputs' speaker
counts (it bounds every input and is attained by one of them), its
duration is the sum of the inputs' durations, and its detected language
is that of the first input. -/
theorem merge_stats (t : Transcript) (rest : List Transcript) (m : Transcript)
    (h : mergeTranscripts (t :: rest) = some m) :
    (∀ u ∈ t :: rest, u.speakers_count ≤ m.speakers_count)
    ∧ m.speakers_count ∈ (t :: rest).map (·.speakers_count)
    ∧ m.duration_seconds = ((t :: rest).map (·.duration_seconds)).sum
    ∧ m.detected_language = t.detected_language := by
  have hm : m = merge1 t rest := by
    injection h with h'
    exact h'.symm
  subst hm
  cases rest with
  | nil =>
    refine ⟨?_, ?_, ?_, rfl⟩
    · intro u hu
      rcases List.mem_cons.1 hu with rfl | h2
      · exact Nat.le_refl _
      · cases h2
    · simp [merge1]
    · simp [merge1]
  | cons r rs =>
    refine ⟨?_, ?_, rfl, rfl⟩
    · intro u hu
      exact le_listMaxNat (List.mem_map_of_mem (·.speakers_count) hu)
    · exact listMaxNat_mem (by simp)

/-- Witness for C6 at the concrete inputs with speaker counts
`[2, 3, 1]` and durations `[60, 90, 30]`. -/
theorem merge_stats_witness :
    (∀ u ∈ [tA, tB, tC], u.speakers_count ≤ (merge1 tA [tB, tC]).speakers_count)
    ∧ (merge1 tA [tB, tC]).speakers_count ∈ ([tA, tB, tC].map (·.speakers_count))
    ∧ (merge1 tA [tB, tC]).duration_seconds
        = (([tA, tB, tC].map (·.duration_seconds))).sum
    ∧ (merge1 tA [tB, tC]).detected_language = tA.detected_language :=
  merge_stats tA [tB, tC] (merge1 tA [tB, tC]) rfl

/-- C10: while `processing` is true, every incoming source message
(audio/voice, video, document, link text) is silently ignored — the
session, in particular its pending lists, is unchanged and no reply is
sent. -/
theorem midrun_sources_silently_dropped (s : Session) (h : s.processing = true) :
    (∀ fn, handle_audio s fn = ⟨s, none, false⟩)
    ∧ (∀ fn, handle_video s fn = ⟨s, none, false⟩)
    ∧ (∀ fn, handle_document s fn = ⟨s, none, false⟩)
    ∧ (∀ text pm b, handle_text s text pm b = ⟨s, none, false⟩) := by
  refine ⟨fun fn => ?_, fun fn => ?_, fun fn => ?_, fun text pm b => ?_⟩ <;>
    simp [handle_audio, handle_video, handle_document, handle_text, h]

/-- Witness for C10 on a concrete busy session. -/
theorem midrun_sources_silently_dropped_witness :
    busySession.processing = true
    ∧ handle_audio busySession "call.mp3" = ⟨busySession, none, false⟩ :=
  ⟨rfl, (midrun_sources_silently_dropped busySession rfl).1 "call.mp3"⟩

/-- C4 counterexample: for a busy session with an empty re-render
cache, the `retranslate_*` request is rejected with the "no data"
reply — the cache check precedes the busy check — so the rejection is
not the "still working" signal the claim requires for every run-start
request. -/
theorem busy_rerender_reply_counterexample :
    busySession.processing = true
    ∧ handle_retranslate busySession "en" = ⟨busySession, some msgNoData, false⟩
    ∧ msgNoData ≠ msgBusyCb
    ∧ msgNoData ≠ msgBusyAnalyze :=
  ⟨rfl, rfl, by decide, by decide⟩

/-- C4 amended: while `processing` is true every run-start request is
rejected immediately — never queued and with the session unchanged;
the reply is the busy message, except for a re-render request when the
cache is empty, which is rejected with the "no data" message instead. -/
theorem busy_run_requests_rejected (s : Session) (h : s.processing = true) :
    handle_analyze s = ⟨s, some msgBusyAnalyze, false⟩
    ∧ handle_start_analyze s = ⟨s, some msgBusyCb, false⟩
    ∧ (∀ key, handle_language s key = ⟨s, some msgBusyCb, false⟩)
    ∧ (∀ key, (handle_retranslate s key).session = s
        ∧ (handle_retranslate s key).startedRun = false
        ∧ ((handle_retranslate s key).reply = some msgNoData
           ∨ (handle_retranslate s key).reply = some msgBusyCb)) := by
  refine ⟨?_, ?_, fun key => ?_, fun key => ?_⟩
  · simp [handle_analyze, h]
  · simp [handle_start_analyze, h]
  · simp [handle_language, h]
  · unfold handle_retranslate
    rcases hb : (!s.last_transcript_data.isSome && !pyTruthy s.last_transcript) with _ | _
    · simp [hb, h]
    · simp [hb]

/-- Witness for C4 (amended) on a concrete busy session. -/
theorem busy_run_requests_rejected_witness :
    busySession.processing = true
    ∧ handle_analyze busySession = ⟨busySession, some msgBusyAnalyze, false⟩ :=
  ⟨rfl, (busy_run_requests_rejected busySession rfl).1⟩

/-- C3 counterexample: a run over a cached session that fails during
analysis has already overwritten the cached merged transcript
(`last_transcript_data`), so the cache is not exactly as before the
run. -/
theorem fail_run_cache_counterexample :
    (process_meeting cachedSession [Except.ok tB] (Except.error "OpenAI API error")
        (Except.ok ()) "ru" "2024-01-01" "").1.last_transcript_data = some tB
    ∧ cachedSession.last_transcript_data = some tA
    ∧ tB ≠ tA :=
  ⟨rfl, rfl, by decide⟩

/-- C3 amended: a failed run always clears `files`, `urls` and
`processing`; each cache field is either its pre-run value or the
current run's corresponding artifact — `last_transcript_data` is
overwritten with the merged transcript as soon as transcription
succeeded, and `last_analysis`/`last_transcript` are additionally
overwritten with the run's analysis and transcript when the failure
happened only at delivery, after the renders succeeded. -/
theorem fail_run_cache_effects
    (s : Session) (sources : List (Except String Transcript))
    (ar : Except String Analysis) (dv : Except String Unit)
    (lang ds sample : String) (out : Session) (msg : String)
    (h : process_meeting s sources ar dv lang ds sample = (out, RunOutcome.failed msg)) :
    out.files = [] ∧ out.urls = [] ∧ out.processing = false
    ∧ (out.last_transcript_data = s.last_transcript_data
       ∨ ∃ t rest, collectSources sources = .ok (t :: rest)
          ∧ out.last_transcript_data = some (merge1 t rest))
    ∧ ((out.last_analysis = s.last_analysis ∧ out.last_transcript = s.last_transcript)
       ∨ ((∃ e, dv = .error e)
          ∧ (∃ a, ar = .ok a ∧ out.last_analysis = some a)
          ∧ (∃ t rest, collectSources sources = .ok (t :: rest)
             ∧ out.last_transcript = some (merge1 t rest).speaker_transcript))) := by
  unfold process_meeting at h
  rcases hcs : collectSources sources with e | ts
  · rw [hcs] at h
    replace h : (reset_session { s with processing := true },
        RunOutcome.failed e) = (out, RunOutcome.failed msg) := h
    injection h with h1 h2
    subst h1
    exact ⟨rfl, rfl, rfl, Or.inl rfl, Or.inl ⟨rfl, rfl⟩⟩
  · rw [hcs] at h
    cases ts with
    | nil =>
      replace h : (reset_session { s with processing := true },
          RunOutcome.noSources) = (out, RunOutcome.failed msg) := h
      injection h with h1 h2
      exact RunOutcome.noConfusion h2
    | cons t rest =>
      rcases ar with e | analysis
      · replace h : (reset_session { s with
            processing := true
            last_transcript_data := some (merge1 t rest) },
            RunOutcome.failed e) = (out, RunOutcome.failed msg) := h
        injection h with h1 h2
        subst h1
        exact ⟨rfl, rfl, rfl, Or.inr ⟨t, rest, rfl, rfl⟩, Or.inl ⟨rfl, rfl⟩⟩
      · rcases dv with e2 | u
        · replace h : (match generate_pdf ds sample analysis lang with
            | .error e =>
              (reset_session { s with
                  processing := true
                  last_transcript_data := some (merge1 t rest) },
               RunOutcome.failed e)
            | .ok _ =>
              (reset_session { s with
                  processing := true
                  last_transcript_data := some (merge1 t rest)
                  last_analysis := some analysis
                  last_transcript := some (merge1 t rest).speaker_transcript },
               RunOutcome.failed e2)) = (out, RunOutcome.failed msg) := h
          rcases hg : generate_pdf ds sample analysis lang with e | fl
          · rw [hg] at h
            replace h : (reset_session { s with
                processing := true
                last_transcript_data := some (merge1 t rest) },
                RunOutcome.failed e) = (out, RunOutcome.failed msg) := h
            injection h with h1 h2
            subst h1
            exact ⟨rfl, rfl, rfl, Or.inr ⟨t, rest, rfl, rfl⟩, Or.inl ⟨rfl, rfl⟩⟩
          · rw [hg] at h
            replace h : (reset_session { s with
                processing := true
                last_transcript_data := some (merge1 t rest)
                last_analysis := some analysis
                last_transcript := some (merge1 t rest).speaker_transcript },
                RunOutcome.failed e2) = (out, RunOutcome.failed msg) := h
            injection h with h1 h2
            subst h1
            exact ⟨rfl, rfl, rfl, Or.inr ⟨t, rest, rfl, rfl⟩,
              Or.inr ⟨⟨e2, rfl⟩, ⟨analysis, rfl, rfl⟩, ⟨t, rest, rfl, rfl⟩⟩⟩
        · replace h : (match generate_pdf ds sample analysis lang with
            | .error e =>
              (reset_session { s with
                  processing := true
                  last_transcript_data := some (merge1 t rest) },
               RunOutcome.failed e)
            | .ok _ =>
              (reset_session { s with
                  processing := true
                  last_transcript_data := some (merge1 t rest)
                  last_analysis := some analysis
                  last_transcript := some (merge1 t rest).speaker_transcript },
               RunOutcome.completed)) = (out, RunOutcome.failed msg) := h
          rcases hg : generate_pdf ds sample analysis lang with e | fl
          · rw [hg] at h
            replace h : (reset_session { s with
                processing := true
                last_transcript_data := some (merge1 t rest) },
                RunOutcome.failed e) = (out, RunOutcome.failed msg) := h
            injection h with h1 h2
            subst h1
            exact ⟨rfl, rfl, rfl, Or.inr ⟨t, rest, rfl, rfl⟩, Or.inl ⟨rfl, rfl⟩⟩
          · rw [hg] at h
            replace h : (reset_session { s with
                processing := true
                last_transcript_data := some (merge1 t rest)
                last_analysis := some analysis
                last_transcript := some (merge1 t rest).speaker_transcript },
                RunOutcome.completed) = (out, RunOutcome.failed msg) := h
            injection h with h1 h2
            exact RunOutcome.noConfusion h2

/-- Witness for C3 (amended): a concrete run over a cached session that
fails at delivery, after analysis and the renders succeeded. -/
theorem fail_run_cache_effects_witness :
    (process_meeting cachedSession [Except.ok tC] (Except.ok goalsDoc)
        (Except.error "send failed") "ru" "2024-01-01" "").1.files = []
    ∧ (process_meeting cachedSession [Except.ok tC] (Except.ok goalsDoc)
        (Except.error "send failed") "ru" "2024-01-01" "").1.processing = false :=
  ⟨(fail_run_cache_effects cachedSession [Except.ok tC] (Except.ok goalsDoc)
      (Except.error "send failed") "ru" "2024-01-01" "" _ "send failed" rfl).1,
   (fail_run_cache_effects cachedSession [Except.ok tC] (Except.ok goalsDoc)
      (Except.error "send failed") "ru" "2024-01-01" "" _ "send failed"
      rfl).2.2.1⟩

/-- C1: on a document whose `risks` list has one entry (probability
`высокая`, no `mitigation`), `generate_pdf` does not produce a risks
table — it raises `NameError: name 'pw' is not defined`, because the
risks table's column widths use the undefined name `pw`. -/
theorem pdf_risks_raises_nameerror :
    generate_pdf "2024-01-01" "" riskDoc "ru" = Except.error nameErrorPw
    ∧ nameErrorPw = "NameError: name \x27pw\x27 is not defined" :=
  ⟨rfl, rfl⟩

/-- C2 counterexample: the TXT output for the empty document is a bare
transcription header — it contains neither the brand line nor the
footer line that the other two renderers emit, so not all three outputs
contain "the brand/header and footer". -/
theorem txt_no_brand_footer_counterexample :
    ¬ ("Цифровой Умник".data <:+: (generate_txt "2024-01-01" {} "").data)
    ∧ ¬ ("AI-анализ встречи".data <:+: (generate_txt "2024-01-01" {} "").data) := by
  constructor
  · intro hin
    have hb := (containsSub_iff "Цифровой Умник".data
        (generate_txt "2024-01-01" {} "").data).2 hin
    rw [show containsSub "Цифровой Умник".data
        (generate_txt "2024-01-01" {} "").data = false from rfl] at hb
    exact Bool.false_ne_true hb
  · intro hin
    have hb := (containsSub_iff "AI-анализ встречи".data
        (generate_txt "2024-01-01" {} "").data).2 hin
    rw [show containsSub "AI-анализ встречи".data
        (generate_txt "2024-01-01" {} "").data = false from rfl] at hb
    exact Bool.false_ne_true hb

set_option maxRecDepth 1000000 in
/-- C2 amended: on the empty document `{}` none of the three renderers
raises; the PDF story and the HTML document are non-empty and contain
the brand and the footer, while the TXT output is a non-empty
transcription header (no brand or footer line). -/
theorem empty_doc_renderers_defensive :
    generate_pdf "2024-01-01" "" {} "ru" = Except.ok
      [Flowable.para "Цифровой Умник", Flowable.para "Отчёт от 2024-01-01",
       Flowable.hrule,
       Flowable.table [["Дата", "–", "Длительность", "–"],
         ["Участники", "–", "Формат", "–"], ["Область", "–", "Тон", "–"]],
       Flowable.spacer, Flowable.spacer, Flowable.hrule,
       Flowable.para "Цифровой Умник • 2024-01-01 • AI-анализ встречи"]
    ∧ ("🧠 Цифровой Умник".data <:+: (generate_html "2024-01-01" {} "" "ru").data)
    ∧ ("AI-анализ встречи".data <:+: (generate_html "2024-01-01" {} "" "ru").data)
    ∧ generate_html "2024-01-01" {} "" "ru" ≠ ""
    ∧ ("ТРАНСКРИПЦИЯ".data <:+: (generate_txt "2024-01-01" {} "").data)
    ∧ generate_txt "2024-01-01" {} "" ≠ "" := by
  refine ⟨rfl, ?_, ?_, ?_, by decide, by decide⟩
  · exact anyContains_strJoin (by rfl)
  · exact anyContains_strJoin (by rfl)
  · exact infix_ne_empty (by decide) (anyContains_strJoin (p := "🧠".data) (by rfl))

set_option maxRecDepth 1000000 in
/-- C7: every string field value inserted into markup goes through
`esc`, whose output contains no raw `<` or `>` and whose every `&`
starts an entity (`wellEscaped`); concretely, the topic title
`<script>&test</script>` appears in the HTML document and in the PDF
story only in escaped form, and the raw title does not occur in the
topic card built from it. -/
theorem markup_field_values_escaped :
    (∀ s : String, wellEscaped (esc s).data = true)
    ∧ (∀ s : String, '<' ∉ (esc s).data ∧ '>' ∉ (esc s).data)
    ∧ esc "<script>&test</script>" = "&lt;script&gt;&amp;test&lt;/script&gt;"
    ∧ ("&lt;script&gt;&amp;test&lt;/script&gt;".data
        <:+: (generate_html "2024-01-01" scriptDoc "" "ru").data)
    ∧ generate_pdf "2024-01-01" "" scriptDoc "ru" = Except.ok
      [Flowable.para "Цифровой Умник", Flowable.para "Отчёт от 2024-01-01",
       Flowable.hrule,
       Flowable.table [["Дата", "–", "Длительность", "–"],
         ["Участники", "–", "Формат", "–"], ["Область", "–", "Тон", "–"]],
       Flowable.spacer, Flowable.para "<b>1.</b> ТЕМЫ ОБСУЖДЕНИЯ",
       Flowable.keep ["<b>1. &lt;script&gt;&amp;test&lt;/script&gt;</b>"],
       Flowable.spacer, Flowable.spacer, Flowable.hrule,
       Flowable.para "Цифровой Умник • 2024-01-01 • AI-анализ встречи"]
    ∧ ¬ ("<script>&test</script>".data
        <:+: (htmlTopicItem 1 { title := some "<script>&test</script>" }).data) := by
  refine ⟨esc_wellEscaped, ?_, rfl, ?_, rfl, ?_⟩
  · intro s
    exact wellEscaped_no_raw (esc_wellEscaped s)
  · exact anyContains_strJoin (by rfl)
  · intro hin
    have hb := (containsSub_iff _ _).2 hin
    rw [show containsSub "<script>&test</script>".data
        (htmlTopicItem 1 { title := some "<script>&test</script>" }).data = false
      from rfl] at hb
    exact Bool.false_ne_true hb

set_option maxRecDepth 1000000 in
/-- C8 counterexample: in a report rendered for language `en`, the PDF
meeting-goals section heading is the hard-coded Russian default
`ЦЕЛИ ВСТРЕЧИ` (the key is absent from every `I18N` table), and the
HTML overview heading is the hard-coded Russian `Обзор встречи`; the
fixed UI strings are therefore not all taken from a localization table
keyed by the target language. -/
theorem ui_strings_not_localized_counterexample :
    pdfHasPara (generate_pdf "2024-01-01" "" goalsDoc "en")
      "<b>5.1.</b> ЦЕЛИ ВСТРЕЧИ" = true
    ∧ ("Обзор встречи".data <:+: (generate_html "2024-01-01" goalsDoc "" "en").data)
    ∧ List.lookup "meeting_goals" I18N_en = none :=
  ⟨rfl, anyContains_strJoin (by rfl), rfl⟩

/-- C8 amended: the PDF renderer takes its primary UI strings from the
per-language `I18N` table selected by the effective language code,
falling back to the Russian table for an unrecognized code; but the
newer (v3) section labels are looked up with hard-coded Russian
defaults under keys that exist in no table, and the HTML renderer
ignores the language code entirely (all its UI chrome is hard-coded). -/
theorem ui_strings_localization_actual (lang : String)
    (h : lang ∉ (["ru", "en", "kk", "es", "zh"] : List String)) :
    i18nGet lang = I18N_ru
    ∧ lookupD I18N_en "topics" "" = "DISCUSSION TOPICS"
    ∧ lookupD I18N_en "responsible" "" = "Responsible"
    ∧ List.lookup "risks_title" I18N_en = none
    ∧ (∀ ds a tr l₁ l₂, generate_html ds a tr l₁ = generate_html ds a tr l₂) := by
  refine ⟨?_, rfl, rfl, rfl, fun _ _ _ _ _ => rfl⟩
  simp only [List.mem_cons, List.not_mem_nil, or_false, not_or] at h
  obtain ⟨h1, h2, h3, h4, h5⟩ := h
  simp [i18nGet, h1, h2, h3, h4, h5]

/-- Witness for C8 (amended) at the unrecognized code `fr`. -/
theorem ui_strings_localization_actual_witness :
    ("fr" ∉ (["ru", "en", "kk", "es", "zh"] : List String))
    ∧ i18nGet "fr" = I18N_ru :=
  ⟨by decide, (ui_strings_localization_actual "fr" (by decide)).1⟩

set_option maxRecDepth 1000000 in
/-- C9 counterexample: the PDF story for a document with a conclusion
block renders the conclusion section, but the HTML output built from
the same document does not contain the conclusion text anywhere — the
HTML does not cover the same sections as the PDF. -/
theorem html_missing_pdf_sections_counterexample :
    pdfHasPara (generate_pdf "2024-01-01" "" concDoc "ru")
      "<b>Главный инсайт:</b> ΩInsight" = true
    ∧ ¬ ("ΩInsight".data <:+: (generate_html "2024-01-01" concDoc "" "ru").data) :=
  ⟨rfl, not_infix_of_sentinel (by decide) (allCharFree_strJoin (c := 'Ω') (by rfl))⟩

set_option maxRecDepth 1000000 in
/-- C9 amended: the HTML report covers overview, topics,
decisions-and-tasks, dynamics, recommendations (v2 key only),
uncertainties/corrections, glossary and a raw-transcript tab; it omits
the PDF's meeting-goals, SWOT, risks, action-plan, conclusion and
open-questions sections and the v3 substantive recommendations —
shown on `richDoc`, whose PDF-only field values all carry the sentinel
`Ω`, which the HTML output never contains. -/
theorem html_sections_coverage :
    ("🎯 Темы обсуждения".data <:+: richHtml.data)
    ∧ ("Quarterly roadmap review".data <:+: richHtml.data)
    ∧ ("📌 Решения и задачи".data <:+: richHtml.data)
    ∧ ("Adopt plan Alpha".data <:+: richHtml.data)
    ∧ ("Prepare budget draft".data <:+: richHtml.data)
    ∧ ("📊 Динамика встречи".data <:+: richHtml.data)
    ∧ ("💡 Рекомендации Цифрового Умника".data <:+: richHtml.data)
    ∧ ("📝 Транскрипт</button>".data <:+: richHtml.data)
    ∧ ("📝 Транскрипция".data <:+: richHtml.data)
    ∧ ("transcript line".data <:+: richHtml.data)
    ∧ ¬ ("ΩInsight".data <:+: richHtml.data)
    ∧ ¬ ("ΩStrength".data <:+: richHtml.data)
    ∧ ¬ ("ΩRisk".data <:+: richHtml.data)
    ∧ ¬ ("ΩSubstantive".data <:+: richHtml.data)
    ∧ ¬ ("ΩUrgent".data <:+: richHtml.data)
    ∧ ¬ ("ΩQuestion".data <:+: richHtml.data) := by
  have hΩ : 'Ω' ∉ richHtml.data := allCharFree_strJoin (by rfl)
  refine ⟨anyContains_strJoin (by rfl), anyContains_strJoin (by rfl),
    anyContains_strJoin (by rfl), anyContains_strJoin (by rfl),
    anyContains_strJoin (by rfl), anyContains_strJoin (by rfl),
    anyContains_strJoin (by rfl), anyContains_strJoin (by rfl),
    anyContains_strJoin (by rfl), anyContains_strJoin (by rfl),
    not_infix_of_sentinel (by decide) hΩ, not_infix_of_sentinel (by decide) hΩ,
    not_infix_of_sentinel (by decide) hΩ, not_infix_of_sentinel (by decide) hΩ,
    not_infix_of_sentinel (by decide) hΩ, not_infix_of_sentinel (by decide) hΩ⟩

end MeetingAnalyzer

